import Mathlib

/-
  Verification development for the sasya-chikitsa workflow engine.

  Shallow embedding of:
  - engine/fsm_agent/core/langgraph_workflow.py  (nodes, routers, edge maps,
    the LangGraph run loop, the delta streamer);
  - engine/fsm_agent/core/session_manager.py     (session store);
  - engine/fsm_agent/core/nodes/completed_node.py (class-based Completed node).

  The helper module engine/fsm_agent/core/workflow_state.py (create_initial_state,
  add_message_to_state, update_state_node, set_error, can_retry, mark_complete)
  is not part of the sources; those helpers are modelled from the spec and say so
  in their doc comments.

  Python dictionaries are modelled as association lists with unique keys
  (insertion order preserved); Python truthiness of optional strings / lists is
  modelled explicitly.  datetime timestamps are outside the model (they are
  either excluded from streaming or irrelevant to the claims).
-/

namespace Sasya

/-- Leading-match test: `charsLeadMatch n h` is true when the character list `n`
is an initial segment of `h`.  Used to model the Python `in` substring test. -/
def charsLeadMatch : List Char → List Char → Bool
  | [], _ => true
  | _ :: _, [] => false
  | n :: ns, h :: hs => n == h && charsLeadMatch ns hs

/-- Substring occurrence on character lists: the needle occurs at some position
of the haystack. -/
def charsContain (needle : List Char) : List Char → Bool
  | [] => charsLeadMatch needle []
  | h :: t => charsLeadMatch needle (h :: t) || charsContain needle t

/-- Model of the Python test `needle in hay` on strings. -/
def strContains (hay needle : String) : Bool :=
  charsContain needle.data hay.data

/-- Python truthiness of an optional string (`None` and `""` are falsy). -/
def strTruthy : Option String → Bool
  | none => false
  | some s => s != ""

/-- Model of Python `str.lower()` (character-wise, reducible in the kernel). -/
def strLower (s : String) : String := ⟨s.data.map Char.toLower⟩

/-- Model of Python `str.upper()` (character-wise, reducible in the kernel). -/
def strUpper (s : String) : String := ⟨s.data.map Char.toUpper⟩

/-- First-occurrence lookup in an association list (Python `d[k]` / `d.get(k)`). -/
def alookup {α : Type} : List (String × α) → String → Option α
  | [], _ => none
  | (k, v) :: rest, key => if k == key then some v else alookup rest key

/-- Key removal from an association list (Python `del d[k]`). -/
def aerase {α : Type} (d : List (String × α)) (k : String) : List (String × α) :=
  d.filter (fun kv => kv.1 != k)

/-- Keys of an association list, in order. -/
def akeys {α : Type} (d : List (String × α)) : List String :=
  d.map (fun kv => kv.1)

/-- Primitive values stored inside a state chunk (opaque payloads such as
image blobs or raw prediction arrays are represented as strings). -/
inductive P where
  | pstr : String → P
  | pnat : Nat → P
  | pbool : Bool → P
  | pnone : P
deriving DecidableEq, Repr

/-- A flat Python dict of primitive values (e.g. `classification_results`). -/
abbrev PDict := List (String × P)

/-- Values of a streamed state chunk: a primitive, or a nested dict of
primitives (the shape of `classification_results`). -/
inductive V where
  | prim : P → V
  | vobj : PDict → V
deriving DecidableEq, Repr

/-- A Python dict of streamable state data, as an ordered association list. -/
abbrev Dict := List (String × V)

/-! ## Delta streamer (langgraph_workflow._calculate_state_delta and friends) -/

/-- Keys the streamer never emits, from the exclusion lists in
`_calculate_state_delta` / `_filter_chunk_for_streaming` /
`_create_clean_state_copy_from_actual_data`. -/
def excludedKeys : List String :=
  ["user_image", "image", "attention_overlay", "messages", "last_update_time"]

/-- Verbose subfields removed from `classification_results` by
`_filter_chunk_for_streaming`. -/
def verboseFields : List String :=
  ["raw_predictions", "plant_context", "attention_overlay"]

/-- Embedding of `_calculate_state_delta(current_state, previous_state)`:
on the first call (`previous_state` empty/falsy) every non-excluded key is new;
afterwards a key is kept when it is absent from the previous clean state or its
value changed (structural `!=`).  The flattening of the LangGraph
`{node_name: state_data}` wrapper is applied before this function, so `cur` is
the per-step snapshot itself. -/
def calculateStateDelta (cur prev : Dict) : Dict :=
  if prev.isEmpty then
    cur.filter (fun kv => !(excludedKeys.contains kv.1))
  else
    cur.filter (fun kv =>
      !(excludedKeys.contains kv.1) &&
      (match alookup prev kv.1 with
       | none => true
       | some v => v != kv.2))

/-- Removal of the verbose fields from a `classification_results` value when it
is a dict (`isinstance(..., dict)`); other values pass through. -/
def cleanClassification : V → V
  | .vobj d => .vobj (d.filter (fun kv => !(verboseFields.contains kv.1)))
  | v => v

/-- Value-level embedding of `_filter_chunk_for_streaming(chunk)`: drop the
image keys, `attention_overlay`, `messages`, clean the verbose subfields of
`classification_results`, drop `last_update_time`.  (The reference-level
behaviour of the same source function — its in-place mutation of the nested
dict — is modelled separately below as `filterChunkHeap`.) -/
def filterChunkForStreaming (chunk : Dict) : Dict :=
  let f1 := aerase (aerase chunk ("user_image")) ("image")
  let f2 := aerase f1 ("attention_overlay")
  let f3 := aerase f2 ("messages")
  let f4 := f3.map (fun kv =>
    if kv.1 == "classification_results" then (kv.1, cleanClassification kv.2) else kv)
  aerase f4 ("last_update_time")

/-- Embedding of `_create_clean_state_copy_from_actual_data`: the snapshot
minus the excluded keys. -/
def createCleanStateCopy (d : Dict) : Dict :=
  d.filter (fun kv => !(excludedKeys.contains kv.1))

/-- One iteration of the streaming loop body in `stream_process_message`:
the emitted deltas for the remaining snapshots, given the tracked previous
clean state.  A delta is emitted only when both the delta and its filtered
form are non-empty (Python truthiness of dicts). -/
def streamGo (prev : Dict) : List Dict → List Dict
  | [] => []
  | c :: rest =>
    let delta := calculateStateDelta c prev
    let tail := streamGo (createCleanStateCopy c) rest
    if delta.isEmpty then tail
    else
      let filtered := filterChunkForStreaming delta
      if filtered.isEmpty then tail else filtered :: tail

/-- The sequence of `state_update` payloads emitted by
`stream_process_message` for a sequence of per-step snapshots
(`previous_state` starts empty). -/
def streamDeltas (snaps : List Dict) : List Dict :=
  streamGo [] snaps

/-! ## Reference-level model of `_filter_chunk_for_streaming` (for the
in-place mutation of the shared `classification_results` dict). -/

/-- A dict value at reference level: either an immutable value or a reference
to a heap-allocated dict object (Python dicts are shared by reference). -/
inductive RV where
  | val : V → RV
  | ref : Nat → RV
deriving DecidableEq, Repr

/-- A Python dict whose values may be references to shared dict objects. -/
abbrev RDict := List (String × RV)

/-- The heap of dict objects; an address is an index into the list. -/
abbrev Heap := List PDict

/-- Heap read. -/
def heapGet (h : Heap) (a : Nat) : Option PDict :=
  h.get? a

/-- Heap update at an address. -/
def heapSet (h : Heap) (a : Nat) (d : PDict) : Heap :=
  h.set a d

/-- Reference-level embedding of `_filter_chunk_for_streaming(chunk)`:
`filtered = chunk.copy()` is a shallow copy, so the `classification_results`
value still references the same heap object; the `del classification[...]`
statements then update that shared object in place.  Returns the new heap and
the filtered top-level dict. -/
def filterChunkHeap (h : Heap) (chunk : RDict) : Heap × RDict :=
  let f1 := aerase (aerase chunk ("user_image")) ("image")
  let f2 := aerase f1 ("attention_overlay")
  let f3 := aerase f2 ("messages")
  match alookup f3 ("classification_results") with
  | some (.ref a) =>
    match heapGet h a with
    | some d =>
      let h2 := heapSet h a (d.filter (fun kv => !(verboseFields.contains kv.1)))
      (h2, aerase f3 ("last_update_time"))
    | none => (h, aerase f3 ("last_update_time"))
  | _ => (h, aerase f3 ("last_update_time"))

/-- Reading key `k` of a reference-level dict through the heap, yielding the
value a Python program would observe. -/
def resolveKey (h : Heap) (d : RDict) (k : String) : Option V :=
  match alookup d k with
  | some (.val v) => some v
  | some (.ref a) => (heapGet h a).map V.vobj
  | none => none

/-! ## Workflow state (engine/fsm_agent/core/workflow_state.WorkflowState) -/

/-- A transcript entry of `state["messages"]`: role, content, the node that was
active when appended, and the per-turn image attached by the session manager.
(The wall-clock timestamp field is outside the model.) -/
structure Msg where
  role : String
  content : String
  node : String
  image : Option String := none
deriving DecidableEq, Repr

/-- The structured intent flags produced by `_analyze_user_intent`
(LLM-backed with a keyword fallback; treated as an external oracle).
`wants_technical_details` is an extra key the LLM may supply, read by
`_generate_follow_ups`. -/
structure Intent where
  wants_classification : Bool := false
  wants_prescription : Bool := false
  wants_vendors : Bool := false
  wants_full_workflow : Bool := false
  is_general_question : Bool := false
  general_answer : String := ""
  wants_technical_details : Bool := false
deriving DecidableEq, Repr

/-- Successful payload of the Classification tool.  `confidence_pct` models the
float confidence as a percentage (numeric precision is irrelevant to the
claims). -/
structure ClassifyPayload where
  disease_name : String := ""
  confidence_pct : Nat := 0
  severity : String := ""
  description : String := ""
  attention_overlay : Option String := none
deriving DecidableEq, Repr

/-- One treatment entry of a prescription payload. -/
structure Treatment where
  name : String := ""
deriving DecidableEq, Repr

/-- Successful payload of the Prescription tool. -/
structure PrescribePayload where
  treatments : List Treatment := []
  preventive_measures : List String := []
  notes : Option String := none
deriving DecidableEq, Repr

/-- One vendor entry of a vendor payload. -/
structure Vendor where
  name : String := ""
  total_price : Nat := 0
deriving DecidableEq, Repr

/-- Successful payload of the Vendor tool. -/
structure VendorPayload where
  vendors : List Vendor := []
deriving DecidableEq, Repr

/-- The order record synthesized by `_order_booking_node`. -/
structure OrderDetails where
  order_id : String
  vendor : Vendor
  items : List Treatment
  total_amount : Nat
  status : String
  estimated_delivery : String
deriving DecidableEq, Repr

/-- The `WorkflowState` record threaded through every node (the typed fields
the claims depend on; wall-clock timestamps are outside the model). -/
structure WState where
  session_id : String := ""
  current_node : String := "initial"
  previous_node : Option String := none
  next_action : Option String := none
  user_message : String := ""
  user_image : Option String := none
  user_intent : Option Intent := none
  user_context : List (String × String) := []
  plant_type : Option String := none
  location : Option String := none
  season : Option String := none
  growth_stage : Option String := none
  general_answer : Option String := none
  classification_results : Option ClassifyPayload := none
  disease_name : Option String := none
  confidence_pct : Option Nat := none
  attention_overlay : Option String := none
  prescription_data : Option PrescribePayload := none
  treatment_recommendations : List Treatment := []
  preventive_measures : List String := []
  vendor_options : List Vendor := []
  selected_vendor : Option Vendor := none
  order_details : Option OrderDetails := none
  order_status : Option String := none
  error_message : Option String := none
  retry_count : Nat := 0
  messages : List Msg := []
  assistant_response : Option String := none
  is_complete : Bool := false
  requires_user_input : Bool := false
deriving DecidableEq, Repr

/-- Modelled from the spec: `workflow_state.add_message_to_state` appends one
transcript entry of the shape given in section 3 of the spec (role, content,
timestamp, node); the transcript is append-only. -/
def add_message_to_state (s : WState) (role content : String) : WState :=
  { s with messages := s.messages ++ [{ role := role, content := content, node := s.current_node }] }

/-- Modelled from the spec: `workflow_state.update_state_node` records the
transition — `previous_node` is set to the outgoing `current_node` exactly once
per transition, before the new node executes. -/
def update_state_node (s : WState) (node : String) : WState :=
  { s with previous_node := some s.current_node, current_node := node }

/-- Modelled from the spec: `workflow_state.set_error` stores the failure in
the `error_message` bookkeeping field. -/
def set_error (s : WState) (msg : String) : WState :=
  { s with error_message := some msg }

/-- Modelled from the spec: `workflow_state.can_retry` — a failed attempt is
retryable exactly when `retry_count` is still below the retry ceiling
(the ceiling is the `max_retries` configuration value). -/
def can_retry (ceiling : Nat) (s : WState) : Bool :=
  decide (s.retry_count < ceiling)

/-- Modelled from the spec: `workflow_state.mark_complete` sets `is_complete`
and, when given a farewell message, records it as the assistant response and
appends it to the transcript. -/
def mark_complete (s : WState) (msg : Option String := none) : WState :=
  match msg with
  | none => { s with is_complete := true }
  | some m =>
    let s := add_message_to_state s ("assistant") m
    { s with is_complete := true, assistant_response := some m }

/-- Modelled from the spec: `workflow_state.create_initial_state` builds a
fresh per-session state with all fields defaulted, the per-turn inputs stored,
caller-supplied context copied into the individual context fields, and the
first user message appended to the transcript. -/
def create_initial_state (sid msg : String) (img : Option String)
    (ctx : List (String × String)) : WState :=
  { session_id := sid
    current_node := "initial"
    user_message := msg
    user_image := img
    user_context := ctx
    plant_type := alookup ctx ("plant_type")
    location := alookup ctx ("location")
    season := alookup ctx ("season")
    growth_stage := alookup ctx ("growth_stage")
    messages := [{ role := "user", content := msg, node := "initial", image := img }] }

/-! ## Tool adapters (external collaborators, modelled as oracles) -/

/-- Outcome of an `await tool.arun(...)` call: a successful payload, a dict
carrying an `error` key, a falsy result (`None`/empty), or a raised
exception. -/
inductive ToolRes (α : Type) where
  | ok : α → ToolRes α
  | errPayload : String → ToolRes α
  | noResult : ToolRes α
  | raised : String → ToolRes α
deriving DecidableEq, Repr

/-- A tool call that did not succeed (error payload, falsy result, or raised
exception) — the failure condition `not (result and not result.get("error"))`
plus the exception path. -/
def toolFailed {α : Type} [DecidableEq α] : ToolRes α → Bool
  | .ok _ => false
  | _ => true

/-- Successful payload of the Context-Extraction tool. -/
structure CtxResult where
  plant_type : Option String := none
  location : Option String := none
  season : Option String := none
  growth_stage : Option String := none
deriving DecidableEq, Repr

/-- The external world of one engine run: adapter outcomes and configuration.
`classify`/`prescribe` are indexed by the `retry_count` at the call, so each
retried attempt gets its own outcome.  `intent` is the total outcome of
`_analyze_user_intent` (which catches its own exceptions and falls back to
keyword analysis, hence never raises).  `goodbye_llm` is the raw LLM response
of the goodbye-intent detector (`none` models an exception, which triggers the
keyword fallback).  `max_retries` is the retry ceiling of
`workflow_state.can_retry`; `now` stands in for `datetime.now()` strings. -/
structure Env where
  intent : Intent := {}
  context_extract : ToolRes CtxResult := ToolRes.noResult
  classify : Nat → ToolRes ClassifyPayload := fun _ => ToolRes.noResult
  prescribe : Nat → ToolRes PrescribePayload := fun _ => ToolRes.noResult
  vendor : ToolRes VendorPayload := ToolRes.noResult
  attention : Except String String := Except.ok ("")
  goodbye_llm : Option String := none
  now : String := ""
  max_retries : Nat := 3

/-! ## Node implementations (langgraph_workflow nodes) -/

/-- Merge of two string dicts with the second taking precedence, modelling the
Python `{**extracted, **existing}` merge in `_initial_node`. -/
def dictMerge (a b : List (String × String)) : List (String × String) :=
  (a.map (fun kv => (kv.1, (alookup b kv.1).getD kv.2)))
    ++ b.filter (fun kv => (alookup a kv.1).isNone)

/-- Context processing of `_initial_node`: merge `user_context` (API context
takes precedence) and fill the individual fields only when not already set. -/
def applyContextExtraction (s : WState) (cr : CtxResult) : WState :=
  let extracted : List (String × String) :=
    (match cr.plant_type with | some v => [("plant_type", v)] | none => [])
    ++ (match cr.location with | some v => [("location", v)] | none => [])
    ++ (match cr.season with | some v => [("season", v)] | none => [])
    ++ (match cr.growth_stage with | some v => [("growth_stage", v)] | none => [])
  let s := { s with user_context := dictMerge extracted s.user_context }
  let s := if strTruthy s.location then s else { s with location := cr.location }
  let s := if strTruthy s.season then s else { s with season := cr.season }
  let s := if strTruthy s.plant_type then s else { s with plant_type := cr.plant_type }
  if strTruthy s.growth_stage then s else { s with growth_stage := cr.growth_stage }

/-- The intent-driven branch of `_initial_node` choosing `next_action` among
classify / request_image / completed / general_help. -/
def determineNextAction (s : WState) (ui : Intent) (ga : String) : WState :=
  if strTruthy s.user_image && ui.wants_classification then
    let m := ("🌱 I can see you have uploaded an image of a plant leaf. Let me analyze it for disease detection.")
      ++ (if ga != "" then "\n\n🌾 **General Agricultural Advice:** " ++ ga else "")
    add_message_to_state { s with next_action := some "classify" } ("assistant") m
  else if ui.wants_classification && !(strTruthy s.user_image) then
    let m := ("🌱 I would be happy to help analyze your plant! Please upload a clear photo of the affected leaf showing any symptoms.")
      ++ (if ga != "" then "\n\n🌾 **General Agricultural Advice:** " ++ ga else "")
    let s := add_message_to_state { s with next_action := some "request_image" } ("assistant") m
    { s with requires_user_input := true }
  else if ui.is_general_question
      && !(ui.wants_classification || ui.wants_prescription || ui.wants_vendors) then
    let m := if ga != "" then
        "🌾 " ++ ga ++ "\n\nIs there anything else I can help you with regarding plant disease diagnosis or treatment?"
      else
        ("🌾 I understand you have a general farming question. I can provide basic guidance on agricultural topics, but I specialize in plant disease diagnosis and treatment. Feel free to ask about specific plant issues or upload a photo for disease analysis!")
    let s := add_message_to_state { s with next_action := some "completed" } ("assistant") m
    { s with requires_user_input := false }
  else
    let base := ("🌱 Hello! I am your plant disease diagnosis assistant. I can help you:\n\n• **Identify diseases** - Upload a photo for analysis\n• **Get treatment recommendations** - Get prescription after diagnosis\n• **Find vendors** - Locate suppliers for treatments\n\nWhat would you like me to help you with today?")
    let m := if ga != "" then "🌾 " ++ ga ++ "\n\n" ++ base else base
    let s := add_message_to_state { s with next_action := some "general_help" } ("assistant") m
    { s with requires_user_input := true }

/-- Embedding of `_initial_node`: analyze intent, extract context (skipped when
the extractor returns a falsy or error result), store the general answer, then
determine the next action; a raised extractor exception lands in the `except`
branch (`set_error`, `next_action = error`). -/
def initial_node (env : Env) (s0 : WState) : WState :=
  let s := update_state_node s0 ("initial")
  let ui := env.intent
  let s := { s with user_intent := some ui }
  match env.context_extract with
  | .raised e =>
    { set_error s ("Error processing initial request: " ++ e) with next_action := some "error" }
  | cres =>
    let s := match cres with
      | .ok cr => applyContextExtraction s cr
      | _ => s
    let ga := ui.general_answer
    let s := if ga != "" then { s with general_answer := some ga } else s
    determineNextAction s ui ga

/-- Formatting of a successful classification result in `_classifying_node`. -/
def formatClassificationResponse (r : ClassifyPayload) : String :=
  "🔬 **Disease Classification Complete**\n\n**Diagnosis:** " ++ r.disease_name
    ++ "\n**Confidence:** " ++ toString r.confidence_pct
    ++ "%\n**Severity:** " ++ r.severity ++ "\n\n" ++ r.description

/-- Failure handling of `_classifying_node` for an adapter error payload or
falsy result: retry below the ceiling (incrementing `retry_count` per the
retry bookkeeping), otherwise fatal. -/
def classifyFailure (env : Env) (s : WState) (errMsg : String) : WState :=
  if can_retry env.max_retries s then
    let s := { s with next_action := some "retry", retry_count := s.retry_count + 1 }
    add_message_to_state s ("assistant")
      ("⚠️ Classification attempt failed: " ++ errMsg ++ ". Retrying...")
  else
    { set_error s errMsg with next_action := some "error" }

/-- Exception handling of `_classifying_node` (`except` branch). -/
def classifyRaised (env : Env) (s : WState) (e : String) : WState :=
  if can_retry env.max_retries s then
    let s := { s with next_action := some "retry", retry_count := s.retry_count + 1 }
    add_message_to_state s ("assistant")
      ("⚠️ Error during classification: " ++ e ++ ". Retrying...")
  else
    { set_error s ("Classification error: " ++ e) with next_action := some "error" }

/-- Embedding of `_classifying_node`: missing-image guard, adapter call,
success bookkeeping and intent-driven next action, retry-or-fatal failure
handling. -/
def classifying_node (env : Env) (s0 : WState) : WState :=
  let s := update_state_node s0 ("classifying")
  if !(strTruthy s.user_image) then
    { set_error s ("No image provided for classification") with next_action := some "error" }
  else
    let s := add_message_to_state s ("assistant")
      ("🔬 Analyzing the plant leaf image for disease detection...")
    let ui := s.user_intent.getD {}
    match env.classify s.retry_count with
    | .ok r =>
      let s := { s with
        classification_results := some r
        disease_name := some r.disease_name
        confidence_pct := some r.confidence_pct
        attention_overlay := r.attention_overlay }
      let response := formatClassificationResponse r
      let s := { s with assistant_response := some response }
      let s := add_message_to_state s ("assistant") response
      if ui.wants_prescription then { s with next_action := some "prescribe" }
      else if ui.wants_vendors then { s with next_action := some "prescribe" }
      else
        let s := { s with next_action := some "completed", is_complete := true }
        let cmsg := ("✅ **Analysis Complete!** If you need treatment recommendations or want to find vendors, just let me know!")
          ++ (if strTruthy s.general_answer then
                "\n\n🌾 **General Agricultural Advice:** " ++ s.general_answer.getD "" else "")
        add_message_to_state s ("assistant") cmsg
    | .errPayload e => classifyFailure env s e
    | .noResult => classifyFailure env s ("Classification tool returned no result")
    | .raised e => classifyRaised env s e

/-- Formatting of `_format_prescription_response` (content shape; the claims
only depend on it being a deterministic function of the payload). -/
def formatPrescriptionResponse (r : PrescribePayload) : String :=
  "💊 **Treatment Recommendations**\n\n"
    ++ String.intercalate "\n" (r.treatments.map (fun t => "**" ++ t.name ++ "**"))
    ++ (if r.preventive_measures.isEmpty then "" else
        "\n🛡️ **Preventive Measures**\n" ++ String.intercalate "\n" r.preventive_measures)
    ++ (match r.notes with
        | some n => "\n📝 **Additional Notes:** " ++ n
        | none => "")

/-- Failure handling of `_prescribing_node` for an error payload or falsy
result. -/
def prescribeFailure (env : Env) (s : WState) (errMsg : String) : WState :=
  if can_retry env.max_retries s then
    let s := { s with next_action := some "retry", retry_count := s.retry_count + 1 }
    add_message_to_state s ("assistant")
      ("⚠️ Prescription generation failed: " ++ errMsg ++ ". Retrying...")
  else
    { set_error s errMsg with next_action := some "error" }

/-- Exception handling of `_prescribing_node` (`except` branch). -/
def prescribeRaised (env : Env) (s : WState) (e : String) : WState :=
  if can_retry env.max_retries s then
    let s := { s with next_action := some "retry", retry_count := s.retry_count + 1 }
    add_message_to_state s ("assistant")
      ("⚠️ Error during prescription generation: " ++ e ++ ". Retrying...")
  else
    { set_error s ("Prescription error: " ++ e) with next_action := some "error" }

/-- Embedding of `_prescribing_node`: missing-results guard, adapter call,
success bookkeeping and intent-driven next action, retry-or-fatal failure
handling. -/
def prescribing_node (env : Env) (s0 : WState) : WState :=
  let s := update_state_node s0 ("prescribing")
  if s.classification_results.isNone then
    { set_error s ("No classification results available for prescription") with
        next_action := some "error" }
  else
    let s := add_message_to_state s ("assistant")
      ("💊 Generating personalized treatment recommendations based on the diagnosis...")
    match env.prescribe s.retry_count with
    | .ok r =>
      let s := { s with
        prescription_data := some r
        treatment_recommendations := r.treatments
        preventive_measures := r.preventive_measures }
      let response := formatPrescriptionResponse r
      let s := { s with assistant_response := some response }
      let s := add_message_to_state s ("assistant") response
      let ui := s.user_intent.getD {}
      if ui.wants_vendors then { s with next_action := some "vendor_query" }
      else
        let s := { s with next_action := some "complete", is_complete := true }
        let cmsg := ("✅ **Treatment Plan Complete!** If you would like to find vendors to purchase these treatments, just let me know!")
          ++ (if strTruthy s.general_answer then
                "\n\n🌾 **General Agricultural Advice:** " ++ s.general_answer.getD "" else "")
        add_message_to_state s ("assistant") cmsg
    | .errPayload e => prescribeFailure env s e
    | .noResult => prescribeFailure env s ("Prescription tool returned no result")
    | .raised e => prescribeRaised env s e

/-- Embedding of `_vendor_query_node`: ask the yes/no vendor question and
pause for user input. -/
def vendor_query_node (s0 : WState) : WState :=
  let s := update_state_node s0 ("vendor_query")
  let s := add_message_to_state s ("assistant")
    ("🛒 **Would you like to see local vendor options?**\n\nI can help you find:\n• Local suppliers with current pricing\n• Online vendors with delivery options\n• Organic/chemical treatment alternatives\n\nWould you like me to show you vendor options for the recommended treatments? (Yes/No)")
  { s with requires_user_input := true, next_action := some "await_vendor_response" }

/-- Formatting of `_format_vendor_response` (content shape). -/
def formatVendorResponse (vs : List Vendor) : String :=
  if vs.isEmpty then
    ("🔍 **No vendors found** in your area for the recommended treatments. Please check with local agricultural suppliers.")
  else
    "🛒 **Vendor Options**\n\n" ++ String.intercalate "\n" (vs.map (fun v => "**" ++ v.name ++ "**"))

/-- Embedding of `_show_vendors_node`: missing-recommendations guard, vendor
adapter call; on success list vendors and pause (or complete when the list is
empty); adapter failure and raised exceptions are non-fatal and degrade to a
completion message recommending local suppliers. -/
def show_vendors_node (env : Env) (s0 : WState) : WState :=
  let s := update_state_node s0 ("show_vendors")
  if s.treatment_recommendations.isEmpty then
    { set_error s ("No treatment recommendations available for vendor search") with
        next_action := some "error" }
  else
    let s := add_message_to_state s ("assistant")
      ("🔍 Searching for local vendors and current pricing...")
    match env.vendor with
    | .ok r =>
      let s := { s with vendor_options := r.vendors }
      let response := formatVendorResponse r.vendors
        ++ (if r.vendors.isEmpty then "" else
            "\n\n💡 Would you like to proceed with ordering from any of these vendors? Please let me know which option interests you, or say no if you would prefer not to order right now.")
      let s := { s with assistant_response := some response }
      let s := add_message_to_state s ("assistant") response
      if r.vendors.isEmpty then { s with next_action := some "complete" }
      else { s with requires_user_input := true, next_action := some "await_vendor_selection" }
    | .errPayload e =>
      let s := add_message_to_state s ("assistant")
        ("⚠️ Unable to fetch vendor information: " ++ e ++ ". You can still proceed with the treatment recommendations using local suppliers.")
      { s with next_action := some "complete" }
    | .noResult =>
      let s := add_message_to_state s ("assistant")
        ("⚠️ Unable to fetch vendor information: Vendor tool returned no result. You can still proceed with the treatment recommendations using local suppliers.")
      { s with next_action := some "complete" }
    | .raised e =>
      let s := add_message_to_state s ("assistant")
        ("⚠️ Error searching for vendors: " ++ e ++ ". You can still proceed with the treatment recommendations using local suppliers.")
      { s with next_action := some "complete" }

/-- Embedding of `_order_booking_node`: missing-vendor guard, synthesized
order record (order id derived from session id and the current time), pause
for further input. -/
def order_booking_node (env : Env) (s0 : WState) : WState :=
  let s := update_state_node s0 ("order_booking")
  match s.selected_vendor with
  | none =>
    { set_error s ("No vendor selected for order booking") with next_action := some "error" }
  | some v =>
    let oid := "ORD-" ++ (⟨s.session_id.data.take 8⟩ : String) ++ "-" ++ env.now
    let od : OrderDetails :=
      { order_id := oid, vendor := v, items := s.treatment_recommendations
        total_amount := v.total_price, status := "confirmed"
        estimated_delivery := "3-5 business days" }
    let s := { s with order_details := some od, order_status := some "confirmed" }
    let s := add_message_to_state s ("assistant")
      ("✅ **Order Confirmed!**\n\n**Order ID:** " ++ oid ++ "\n**Vendor:** " ++ v.name
        ++ "\n\nYour order has been successfully placed! Is there anything else I can help you with regarding your plant care?")
    { s with requires_user_input := true, next_action := some "await_final_input" }

/-- `any(word in user_message for word in kws)` on a lowercased message. -/
def anyKeyword (m : String) (kws : List String) : Bool :=
  kws.any (fun k => strContains m k)

/-- Embedding of `_followup_node`: keyword-driven dispatch of the new message
into restart / classify / prescribe / vendors / attention-overlay / complete /
general-help, with prerequisite checks. -/
def followup_node (env : Env) (s0 : WState) : WState :=
  let s := update_state_node s0 ("followup")
  let m := strLower s.user_message
  if anyKeyword m ["new", "another", "different", "start over"] then
    add_message_to_state { s with next_action := some "restart" } ("assistant")
      ("🔄 Starting a new diagnosis. Please share your plant image and any additional context.")
  else if anyKeyword m ["classify", "diagnose", "analyze"] then
    if strTruthy s.user_image then { s with next_action := some "classify" }
    else
      add_message_to_state { s with next_action := some "request_image" } ("assistant")
        ("📸 Please upload an image of the plant leaf you would like me to analyze.")
  else if anyKeyword m ["prescription", "treatment", "recommend"] then
    if s.classification_results.isSome then { s with next_action := some "prescribe" }
    else
      add_message_to_state { s with next_action := some "classify_first" } ("assistant")
        ("🔬 I need to classify the disease first. Please upload an image of the affected leaf.")
  else if anyKeyword m ["vendor", "buy", "purchase", "order"] then
    if s.prescription_data.isSome then { s with next_action := some "show_vendors" }
    else
      add_message_to_state { s with next_action := some "prescribe_first" } ("assistant")
        ("💊 I need to generate treatment recommendations first. Let me analyze your plant image.")
  else if anyKeyword m ["attention", "overlay", "heatmap", "focus", "looking", "important", "highlight"] then
    match env.attention with
    | .ok resp =>
      let s := add_message_to_state s ("assistant") resp
      { s with next_action := some "general_help", requires_user_input := true }
    | .error _ =>
      let s := add_message_to_state s ("assistant")
        ("❌ Sorry, I encountered an error while trying to retrieve the attention overlay. Please try again or start a new classification.")
      { s with next_action := some "general_help" }
  else if anyKeyword m ["done", "finish", "complete", "bye", "thanks"] then
    mark_complete { s with next_action := some "complete" }
      (some ("🌱 Thank you for using the plant disease diagnosis service! Take care of your plants!"))
  else
    let s := add_message_to_state { s with next_action := some "general_help" } ("assistant")
      ("🤔 I can help you with:\n\n• **New diagnosis** - Upload a new plant image\n• **Review results** - Look at previous diagnosis or prescription\n• **Show attention overlay** - See where the AI focused during diagnosis\n• **Find vendors** - Get vendor options for treatments\n• **Ask questions** - Any plant care related questions\n\nWhat would you like to do next?")
    { s with requires_user_input := true }

/-! ## Follow-up suggestion generation and terminal nodes -/

/-- Lowercased concatenation of the transcript's user messages
(`" ".join(user_messages)` over lowercased contents). -/
def allUserText (s : WState) : String :=
  String.intercalate " "
    ((s.messages.filter (fun m => m.role == "user")).map (fun m => strLower m.content))

/-- The `already_asked(keywords)` helper: some keyword already occurs in the
prior user text. -/
def already_asked (userText : String) (kws : List String) : Bool :=
  kws.any (fun k => strContains userText (strLower k))

/-- Candidate follow-up suggestions of `_generate_follow_ups` in
`langgraph_workflow`, in source order, each with the keyword list guarding it
against re-asking; a candidate is present exactly when its surrounding branch
condition holds. -/
def followupCandidates (s : WState) : List (List String × String) :=
  let prev := s.previous_node.getD ""
  let dn := s.disease_name.getD ""
  let stateSpecific :=
    if prev == "classifying" then
      if dn != "" && strLower dn != "healthy" then
        [ (["treatment", "medicine", "cure", "spray", "fungicide"],
           "Would you like specific treatment recommendations or medicine suggestions for this disease?"),
          (["prevent", "prevention", "avoid", "future"],
           "Would you like to know how to prevent this disease in the future?") ]
      else
        [ (["care", "maintenance", "fertilizer", "nutrients"],
           "Would you like tips on optimal care and nutrition for your healthy plants?"),
          (["monitor", "early detection", "signs", "symptoms"],
           "Would you like to know early warning signs to watch for potential diseases?") ]
    else if prev == "prescribing" then
      [ (["vendor", "supplier", "buy", "purchase", "order"],
         "Would you like to know about vendors or suppliers who can provide these treatments?"),
        (["dosage", "application", "how to apply", "instructions"],
         "Do you need detailed application instructions or dosage information?") ]
    else if prev == "vendor_query" || prev == "show_vendors" then
      [ (["application", "timing", "when to apply"],
         "Would you like guidance on the best timing and method for applying the treatments?"),
        (["follow-up", "monitoring", "track progress"],
         "Would you like to know how to monitor treatment progress and follow-up care?") ]
    else []
  let generalSuggestions :=
    (if strTruthy s.plant_type then
      [ (["weather", "climate", "temperature"],
         "Would you like current weather recommendations for your " ++ s.plant_type.getD ""
           ++ " in " ++ (if strTruthy s.location then s.location.getD "" else "your area") ++ "?") ]
     else [])
    ++ (if strTruthy s.season then
      [ (["seasonal", "season", "timing"],
         "Are you interested in seasonal care tips for " ++ s.season.getD "" ++ "?") ]
     else [])
    ++ [ (["insurance", "crop insurance", "protection"],
          "Would you like information about crop insurance options to protect your investment?") ]
    ++ (if (s.user_intent.getD {}).wants_technical_details then
      [ (["analysis", "leaf analysis", "detailed scan"],
         "Would you like a detailed leaf analysis with technical insights?") ]
     else [])
    ++ [ (["soil", "soil health", "nutrients", "fertility"],
          "Are you interested in soil health assessment or nutrient management tips?") ]
    ++ [ (["market", "price", "selling", "harvest"],
          "Would you like market insights or harvest timing recommendations?") ]
  stateSpecific ++ generalSuggestions

/-- Embedding of `_generate_follow_ups` in `langgraph_workflow`: emit, in
order, the candidates whose topic was not already asked, capped at three. -/
def generate_follow_ups (s : WState) : List String :=
  (((followupCandidates s).filter
      (fun c => !(already_asked (allUserText s) c.1))).map (fun c => c.2)).take 3

/-- Numbered suggestion lines (`enumerate(follow_ups, 1)`). -/
def numberedLines (xs : List String) : String :=
  String.join ((xs.enum).map (fun p => "\n" ++ toString (p.1 + 1) ++ ". " ++ p.2))

/-- Embedding of `_completed_node` in `langgraph_workflow` (the node the built
graph registers for `completed`): append the completion message with follow-up
suggestions and unconditionally mark the session complete. -/
def workflow_completed_node (s0 : WState) : WState :=
  let s := update_state_node s0 ("completed")
  let fu := generate_follow_ups s
  let cm := "🌱 Workflow completed successfully!"
    ++ (if fu.isEmpty then "" else
        "\n\n📝 Here are some additional things that might interest you:" ++ numberedLines fu)
  let s := { s with assistant_response := some cm }
  let s := add_message_to_state s ("assistant") cm
  { s with is_complete := true }

/-- Embedding of `_error_node`: format the stored error message and mark
complete. -/
def error_node (s0 : WState) : WState :=
  let s := update_state_node s0 ("error")
  let em := s.error_message.getD ("An unknown error occurred")
  let s := add_message_to_state s ("assistant")
    ("❌ **Error:** " ++ em ++ "\n\nPlease try again or contact support if the issue persists.")
  mark_complete s

/-! ## Class-based Completed node (nodes/completed_node.CompletedNode) -/

/-- Embedding of `CompletedNode._detect_goodbye_intent`: empty messages never
end the session; otherwise the LLM response decides (`YES` present and `NO`
absent, after upper-casing); an LLM exception falls back to goodbye-keyword
matching. -/
def detect_goodbye_intent (env : Env) (s : WState) : Bool :=
  if s.user_message == "" then false
  else
    match env.goodbye_llm with
    | some resp =>
      let r := strUpper resp
      strContains r ("YES") && !(strContains r ("NO"))
    | none =>
      let ml := strLower s.user_message
      anyKeyword ml
        ["thank you", "thanks", "bye", "goodbye", "that\x27s all", "that\x27s it",
         "done", "finish", "complete"]

/-- Candidate suggestions of `CompletedNode._generate_state_specific_followups`
and `_generate_general_suggestions`, in source order, each with its guarding
keyword list. -/
def completedNodeCandidates (s : WState) : List (List String × String) :=
  let prev := s.previous_node.getD ""
  let dn := s.disease_name.getD ""
  let conf := (s.classification_results.map (fun c => c.confidence_pct)).getD 0
  let sev := (s.classification_results.map (fun c => c.severity)).getD ""
  let tcount := (s.prescription_data.map (fun p => p.treatments.length)).getD 0
  let stateSpecific :=
    if prev == "classifying" then
      if dn != "" && strLower dn != "healthy" then
        [ (["treatment", "medicine", "cure", "spray", "fungicide"],
           if strLower sev == "high" || strLower sev == "severe" then
             "🚨 **URGENT**: Request immediate therapeutic intervention plan for severe pathogen management"
           else
             "💊 **TREATMENT**: Get evidence-based therapeutic recommendations and application protocols"),
          (["prevent", "prevention", "avoid", "future"],
           "🛡️ **PREVENTION**: Develop integrated disease management strategy for long-term plant health") ]
        ++ (if 75 ≤ conf then
          [ (["vendor", "supplier", "buy", "purchase"],
             "🛒 **PROCUREMENT**: Connect with certified agricultural suppliers for recommended treatments") ]
         else [])
      else
        [ (["care", "maintenance", "fertilizer", "nutrients"],
           "🌱 **OPTIMIZATION**: Enhance plant vigor with customized nutritional and care protocols"),
          (["monitor", "early detection", "signs", "symptoms"],
           "🔍 **MONITORING**: Implement proactive surveillance system for early pathogen detection") ]
    else if prev == "prescribing" then
      [ (["vendor", "supplier", "buy", "purchase", "order"],
         "🛒 **SUPPLY CHAIN**: Locate certified suppliers for " ++ toString tcount
           ++ " prescribed treatment" ++ (if tcount != 1 then "s" else "")),
        (["dosage", "application", "how to apply", "instructions"],
         "📋 **APPLICATION**: Get detailed administration protocols and safety guidelines"),
        (["monitoring", "response", "effectiveness"],
         "📊 **MONITORING**: Establish treatment efficacy tracking and response assessment") ]
    else if prev == "vendor_query" || prev == "show_vendors" then
      [ (["application", "timing", "when to apply"],
         "⏰ **TIMING**: Optimize treatment scheduling based on plant phenology and environmental conditions"),
        (["follow-up", "monitoring", "track progress"],
         "📈 **TRACKING**: Develop systematic monitoring protocol for treatment response evaluation"),
        (["resistance", "management", "rotation"],
         "🔄 **RESISTANCE MANAGEMENT**: Plan treatment rotation strategy to prevent pathogen resistance") ]
    else []
  let generalSuggestions :=
    (if strTruthy s.plant_type then
      [ (["weather", "climate", "temperature"],
         "🌤️ **ENVIRONMENTAL**: Get precision weather analytics and climate adaptation strategies for "
           ++ s.plant_type.getD "" ++ " cultivation") ]
     else [])
    ++ (if strTruthy s.season then
      [ (["seasonal", "season", "timing"],
         "📅 **SEASONAL PLANNING**: Develop " ++ s.season.getD ""
           ++ "-specific crop management and phenological optimization protocols") ]
     else [])
    ++ [ (["insurance", "crop insurance", "protection"],
          "🛡️ **RISK MANAGEMENT**: Explore comprehensive crop insurance and agricultural risk mitigation solutions") ]
    ++ [ (["soil", "soil health", "nutrients", "fertility"],
          "🧪 **SOIL DIAGNOSTICS**: Conduct precision soil health assessment and nutrient optimization analysis") ]
    ++ [ (["market", "price", "selling", "harvest"],
          "📊 **MARKET INTELLIGENCE**: Access real-time commodity pricing and harvest timing optimization data") ]
    ++ [ (["automation", "technology", "IoT", "sensors"],
          "🤖 **PRECISION AGRICULTURE**: Implement IoT monitoring and automated crop management systems") ]
  stateSpecific ++ generalSuggestions

/-- Embedding of `CompletedNode._generate_follow_ups`: emit, in order, the
candidates whose topic was not already asked, capped at three. -/
def completedNodeFollowUps (s : WState) : List String :=
  (((completedNodeCandidates s).filter
      (fun c => !(already_asked (allUserText s) c.1))).map (fun c => c.2)).take 3

/-- Completion message of `CompletedNode` for a user who said goodbye
(content shape, with the timestamp supplied by the environment). -/
def fullCompletionMessage (env : Env) (fu : List String) : String :=
  "✅ **YOUR PLANT CHECKUP IS DONE**\n\n🌱 **WHAT WE DID**\nWe checked your plant and gave you treatment advice.\n\n🚀 **WHAT TO DO NEXT**"
    ++ (if fu.isEmpty then
        "\n1. Check your plant daily to see if it\x27s getting better\n2. Keep following the care tips we gave you\n3. Take new photos if you see more problems"
      else numberedLines fu)
    ++ "\n\n💚 **WE\x27RE HERE TO HELP**\n\n⏰ **Checkup Completed**\n" ++ env.now
    ++ "\n\n🌱 **Thank you for using Sasya Arogya! Keep your plants healthy!**"

/-- Completion message of `CompletedNode` for ongoing support (no goodbye). -/
def ongoingSupportMessage (fu : List String) : String :=
  "✅ **YOUR PLANT CHECKUP STATUS**\n\n🌱 **WHAT WE DID**\nWe checked your plant and gave you treatment advice.\n\n🚀 **WHAT TO DO NEXT**"
    ++ (if fu.isEmpty then
        "\n1. Check your plant daily to see if it\x27s getting better\n2. Keep following the care tips we gave you\n3. Take new photos if you see more problems"
      else numberedLines fu)
    ++ "\n\n💚 **WE\x27RE HERE TO HELP**"

/-- Embedding of `CompletedNode.execute`: detect goodbye intent, generate
deduplicated follow-ups, emit the matching completion message, and mark the
session complete exactly when the user said goodbye. -/
def completedNodeExecute (env : Env) (s0 : WState) : WState :=
  let s := update_state_node s0 ("completed")
  let userWantsToEnd := detect_goodbye_intent env s
  let fu := completedNodeFollowUps s
  let cm := if userWantsToEnd then fullCompletionMessage env fu else ongoingSupportMessage fu
  let s := { s with assistant_response := some cm }
  let s := add_message_to_state s ("assistant") cm
  { s with is_complete := userWantsToEnd }

/-! ## Routers (langgraph_workflow._route_from_*) -/

/-- Embedding of `_route_from_initial`. -/
def route_from_initial (s : WState) : String :=
  let na := s.next_action.getD "error"
  if na == "classify" then "classifying"
  else if na == "request_image" then "followup"
  else if na == "error" then "error"
  else "completed"

/-- Embedding of `_route_from_classifying`. -/
def route_from_classifying (s : WState) : String :=
  let na := s.next_action.getD "error"
  if na == "prescribe" then "prescribing"
  else if na == "completed" then "completed"
  else if na == "retry" then "retry"
  else if na == "error" then "error"
  else "followup"

/-- Embedding of `_route_from_prescribing`. -/
def route_from_prescribing (s : WState) : String :=
  let na := s.next_action.getD "error"
  if na == "vendor_query" then "vendor_query"
  else if na == "complete" then "completed"
  else if na == "retry" then "retry"
  else if na == "error" then "error"
  else "followup"

/-- Embedding of `_route_from_vendor_query`: the branch is decided by the
user's free-text reply (affirmative/negative keywords). -/
def route_from_vendor_query (s : WState) : String :=
  let ur := strLower s.user_message
  if anyKeyword ur ["yes", "sure", "okay", "show", "vendors"] then "show_vendors"
  else if anyKeyword ur ["no", "skip", "later", "not now"] then "completed"
  else if s.next_action == some "error" then "error"
  else "followup"

/-- Embedding of `_route_from_show_vendors`. -/
def route_from_show_vendors (s : WState) : String :=
  let na := s.next_action.getD "complete"
  if na == "await_vendor_selection" then "followup"
  else if na == "order" && s.selected_vendor.isSome then "order_booking"
  else if na == "error" then "error"
  else "completed"

/-- Embedding of `_route_from_order_booking`. -/
def route_from_order_booking (s : WState) : String :=
  let na := s.next_action.getD "complete"
  if na == "await_final_input" then "followup"
  else if na == "error" then "error"
  else "completed"

/-- The `routing_map` dict of `_route_from_followup`. -/
def followupRoutingMap : List (String × String) :=
  [ ("restart", "initial"), ("classify", "classifying"), ("prescribe", "prescribing"),
    ("show_vendors", "show_vendors"), ("complete", "completed"), ("error", "error"),
    ("request_image", "followup"), ("classify_first", "followup"),
    ("prescribe_first", "followup"), ("general_help", "followup") ]

/-- Embedding of `_route_from_followup`: `routing_map.get(next_action,
"completed")`. -/
def route_from_followup (s : WState) : String :=
  (alookup followupRoutingMap (s.next_action.getD "complete")).getD "completed"

/-! ## The compiled graph (langgraph_workflow._build_workflow) -/

/-- The nine graph nodes registered by `_build_workflow`. -/
inductive NodeId where
  | initial | classifying | prescribing | vendorQuery | showVendors
  | orderBooking | followup | completed | errorNode
deriving DecidableEq, Repr

/-- The conditional-edge mapping registered for each node in
`_build_workflow`: branch name → target node.  `completed` and `error` have
unconditional edges to `END` and no conditional mapping. -/
def edgesFor : NodeId → List (String × NodeId)
  | .initial =>
    [ ("classifying", .classifying), ("followup", .followup),
      ("error", .errorNode), ("completed", .completed) ]
  | .classifying =>
    [ ("prescribing", .prescribing), ("completed", .completed),
      ("followup", .followup), ("error", .errorNode), ("retry", .classifying) ]
  | .prescribing =>
    [ ("vendor_query", .vendorQuery), ("followup", .followup),
      ("completed", .completed), ("error", .errorNode), ("retry", .prescribing) ]
  | .vendorQuery =>
    [ ("show_vendors", .showVendors), ("completed", .completed),
      ("followup", .followup), ("error", .errorNode) ]
  | .showVendors =>
    [ ("order_booking", .orderBooking), ("followup", .followup),
      ("completed", .completed), ("error", .errorNode) ]
  | .orderBooking =>
    [ ("completed", .completed), ("followup", .followup), ("error", .errorNode) ]
  | .followup =>
    [ ("initial", .initial), ("classifying", .classifying),
      ("prescribing", .prescribing), ("vendor_query", .vendorQuery),
      ("show_vendors", .showVendors), ("completed", .completed), ("error", .errorNode) ]
  | .completed => []
  | .errorNode => []

/-- Dispatch of a node execution (the `workflow.add_node` registrations). -/
def executeNode (env : Env) : NodeId → WState → WState
  | .initial, s => initial_node env s
  | .classifying, s => classifying_node env s
  | .prescribing, s => prescribing_node env s
  | .vendorQuery, s => vendor_query_node s
  | .showVendors, s => show_vendors_node env s
  | .orderBooking, s => order_booking_node env s
  | .followup, s => followup_node env s
  | .completed, s => workflow_completed_node s
  | .errorNode, s => error_node s

/-- Dispatch of a node's router function. -/
def routeFrom : NodeId → WState → String
  | .initial, s => route_from_initial s
  | .classifying, s => route_from_classifying s
  | .prescribing, s => route_from_prescribing s
  | .vendorQuery, s => route_from_vendor_query s
  | .showVendors, s => route_from_show_vendors s
  | .orderBooking, s => route_from_order_booking s
  | .followup, s => route_from_followup s
  | .completed, _ => ""
  | .errorNode, _ => ""

/-- How an engine invocation ends. -/
inductive Outcome where
  | finished
  | undefinedBranch : String → Outcome
  | outOfFuel
deriving DecidableEq, Repr

/-- The LangGraph run loop of `app.ainvoke`/`app.astream`: execute the current
node, stop after a terminal node (edge to `END`), otherwise follow the
conditional edge named by the node's router; a branch name missing from the
registered mapping aborts the run, and the step budget models LangGraph's
recursion limit.  Returns the executed-node trace, the final state and the
outcome. -/
def runLoop (env : Env) : Nat → NodeId → WState → List NodeId × WState × Outcome
  | 0, _, s => ([], s, .outOfFuel)
  | fuel + 1, n, s =>
    let s2 := executeNode env n s
    if n == NodeId.completed || n == NodeId.errorNode then ([n], s2, .finished)
    else
      match alookup (edgesFor n) (routeFrom n s2) with
      | none => ([n], s2, .undefinedBranch (routeFrom n s2))
      | some next =>
        let r := runLoop env fuel next s2
        (n :: r.1, r.2.1, r.2.2)

/-! ## Session manager (engine/fsm_agent/core/session_manager.SessionManager) -/

/-- The persisted session store: session id → saved state.  File storage,
JSON (de)serialization and the 24h TTL check of `load_state` are abstracted
into the association list (an expired or unreadable entry is simply absent). -/
abbrev Store := List (String × WState)

/-- Embedding of `SessionManager.load_state`. -/
def load_state (store : Store) (sid : String) : Option WState :=
  alookup store sid

/-- Embedding of `SessionManager.get_or_create_state`: load the existing state
and merge the per-turn inputs (new user message, sticky image, appended
transcript entry), or create a fresh initial state.  The store is returned
unchanged — the function never saves. -/
def get_or_create_state (store : Store) (sid msg : String) (img : Option String)
    (ctx : List (String × String)) : WState × Store :=
  match load_state store sid with
  | some st0 =>
    let st := { st0 with user_message := msg }
    let st :=
      if strTruthy img && !(strTruthy st.user_image) then { st with user_image := img }
      else if strTruthy img then { st with user_image := img }
      else st
    let st := { st with messages := st.messages ++
      [{ role := "user", content := msg, node := st.current_node, image := img }] }
    (st, store)
  | none => (create_initial_state sid msg img ctx, store)

/-- Occurrences of the just-added user message in a transcript. -/
def countUserMsg (msgs : List Msg) (content : String) : Nat :=
  (msgs.filter (fun m => m.role == "user" && m.content == content)).length

/-! ## Generic lemmas about the embedding -/

theorem alookup_aerase {α : Type} (d : List (String × α)) (k key : String) :
    alookup (aerase d k) key = if key == k then none else alookup d key := by
  induction d with
  | nil => simp [aerase, alookup]
  | cons kv rest ih =>
    simp only [aerase, List.filter_cons] at *
    by_cases h1 : kv.1 = k <;> by_cases h2 : key = k <;>
      by_cases h3 : kv.1 = key <;>
        simp_all [alookup]

theorem alookup_filterKeys {α : Type} (d : List (String × α)) (ks : List String) (k : String) :
    alookup (d.filter (fun kv => !(ks.contains kv.1))) k
      = if ks.contains k then none else alookup d k := by
  induction d with
  | nil => simp [alookup]
  | cons kv rest ih =>
    simp only [List.filter_cons] at *
    by_cases h1 : kv.1 = k <;> by_cases h2 : kv.1 ∈ ks <;>
      by_cases h3 : k ∈ ks <;>
        simp_all [alookup]

theorem countUserMsg_append (a b : List Msg) (c : String) :
    countUserMsg (a ++ b) c = countUserMsg a c + countUserMsg b c := by
  simp [countUserMsg, List.filter_append]

theorem countUserMsg_single_match (c : String) (node : String) (img : Option String) :
    countUserMsg [{ role := "user", content := c, node := node, image := img }] c = 1 := by
  simp [countUserMsg]

theorem heapGet_heapSet (h : Heap) (a : Nat) (d d0 : PDict) (hget : heapGet h a = some d0) :
    heapGet (heapSet h a d) a = some d := by
  induction h generalizing a with
  | nil => simp [heapGet] at hget
  | cons x t ih =>
    cases a with
    | zero => simp [heapGet, heapSet]
    | succ n =>
      simpa [heapGet, heapSet] using ih n (by simpa [heapGet] using hget)

/-! ## C10: `_filter_chunk_for_streaming` mutates the shared
`classification_results` dict -/

/-- C10: the delta chunk is copied only shallowly, so when a streamed step
carries `classification_results` as a reference shared with the live workflow
state, filtering the chunk deletes `raw_predictions`, `plant_context` and
`attention_overlay` from the heap object itself: afterwards the session
state's own `classification_results` (read through the updated heap) has lost
those entries, keeping all others — the filter is not effect-free on the state
it filters. -/
theorem filter_chunk_mutates_shared_state (h : Heap) (chunk stateD : RDict) (a : Nat)
    (d : PDict)
    (hchunk : alookup chunk ("classification_results") = some (RV.ref a))
    (hstate : alookup stateD ("classification_results") = some (RV.ref a))
    (hheap : heapGet h a = some d) :
    heapGet (filterChunkHeap h chunk).1 a
        = some (d.filter (fun kv => !(verboseFields.contains kv.1)))
    ∧ resolveKey (filterChunkHeap h chunk).1 stateD ("classification_results")
        = some (V.vobj (d.filter (fun kv => !(verboseFields.contains kv.1))))
    ∧ alookup (d.filter (fun kv => !(verboseFields.contains kv.1))) ("raw_predictions") = none
    ∧ alookup (d.filter (fun kv => !(verboseFields.contains kv.1))) ("plant_context") = none
    ∧ alookup (d.filter (fun kv => !(verboseFields.contains kv.1))) ("attention_overlay") = none
    ∧ (∀ k : String, verboseFields.contains k = false →
        alookup (d.filter (fun kv => !(verboseFields.contains kv.1))) k = alookup d k) := by
  have hf3 : alookup (aerase (aerase (aerase (aerase chunk ("user_image")) ("image"))
      ("attention_overlay")) ("messages")) ("classification_results") = some (RV.ref a) := by
    simp [alookup_aerase, hchunk]
  have hrun : (filterChunkHeap h chunk).1
      = heapSet h a (d.filter (fun kv => !(verboseFields.contains kv.1))) := by
    simp only [filterChunkHeap, hf3, hheap]
  have hg : heapGet (filterChunkHeap h chunk).1 a
      = some (d.filter (fun kv => !(verboseFields.contains kv.1))) := by
    rw [hrun]
    exact heapGet_heapSet h a _ d hheap
  refine ⟨hg, ?_, ?_, ?_, ?_, ?_⟩
  · simp [resolveKey, hstate, hg]
  · simpa using alookup_filterKeys d verboseFields ("raw_predictions")
  · simpa using alookup_filterKeys d verboseFields ("plant_context")
  · simpa using alookup_filterKeys d verboseFields ("attention_overlay")
  · intro k hk
    have hk2 : ¬ (k ∈ verboseFields) := by simpa using hk
    simpa [hk2] using alookup_filterKeys d verboseFields k

/-- C10 witness: a concrete heap-allocated classification dict shared between
the delta chunk and the session state loses its verbose entries when the
chunk is filtered. -/
theorem filter_chunk_mutates_shared_state_witness :
    heapGet (filterChunkHeap
        [[("disease_name", P.pstr "blight"), ("raw_predictions", P.pstr "RAW"),
          ("plant_context", P.pstr "CTX")]]
        [("classification_results", RV.ref 0), ("user_image", RV.val (V.prim (P.pstr "IMG")))]).1 0
      = some [("disease_name", P.pstr "blight")]
    ∧ resolveKey (filterChunkHeap
        [[("disease_name", P.pstr "blight"), ("raw_predictions", P.pstr "RAW"),
          ("plant_context", P.pstr "CTX")]]
        [("classification_results", RV.ref 0), ("user_image", RV.val (V.prim (P.pstr "IMG")))]).1
        [("classification_results", RV.ref 0)] ("classification_results")
      = some (V.vobj [("disease_name", P.pstr "blight")]) := by
  have h := filter_chunk_mutates_shared_state
    [[("disease_name", P.pstr "blight"), ("raw_predictions", P.pstr "RAW"),
      ("plant_context", P.pstr "CTX")]]
    [("classification_results", RV.ref 0), ("user_image", RV.val (V.prim (P.pstr "IMG")))]
    [("classification_results", RV.ref 0)] 0
    [("disease_name", P.pstr "blight"), ("raw_predictions", P.pstr "RAW"),
      ("plant_context", P.pstr "CTX")]
    (by decide) (by decide) (by decide)
  exact ⟨by simpa using h.1, by simpa using h.2.1⟩

/-! ## Run-loop step lemmas -/

theorem runLoop_step (env : Env) (fuel : Nat) (n : NodeId) (s : WState) (next : NodeId)
    (hn : (n == NodeId.completed || n == NodeId.errorNode) = false)
    (hnext : alookup (edgesFor n) (routeFrom n (executeNode env n s)) = some next) :
    runLoop env (fuel + 1) n s =
      (n :: (runLoop env fuel next (executeNode env n s)).1,
       (runLoop env fuel next (executeNode env n s)).2) := by
  simp [runLoop, hn, hnext]

theorem runLoop_stuck (env : Env) (fuel : Nat) (n : NodeId) (s : WState)
    (hn : (n == NodeId.completed || n == NodeId.errorNode) = false)
    (hnext : alookup (edgesFor n) (routeFrom n (executeNode env n s)) = none) :
    runLoop env (fuel + 1) n s =
      ([n], executeNode env n s,
       Outcome.undefinedBranch (routeFrom n (executeNode env n s))) := by
  simp [runLoop, hn, hnext]

theorem runLoop_terminal (env : Env) (fuel : Nat) (n : NodeId) (s : WState)
    (hn : (n == NodeId.completed || n == NodeId.errorNode) = true) :
    runLoop env (fuel + 1) n s = ([n], executeNode env n s, Outcome.finished) := by
  simp only [runLoop, hn, if_pos]

theorem runLoop_error_run (env : Env) (fuel : Nat) (s : WState) (hf : 1 ≤ fuel) :
    runLoop env fuel NodeId.errorNode s = ([NodeId.errorNode], error_node s, Outcome.finished)
    ∧ (error_node s).is_complete = true := by
  obtain ⟨f, rfl⟩ : ∃ f, fuel = f + 1 := ⟨fuel - 1, by omega⟩
  refine ⟨runLoop_terminal env f NodeId.errorNode s (by decide), ?_⟩
  simp [error_node, mark_complete, add_message_to_state, update_state_node]

/-! ## C1: retry bound -/

theorem classifying_fail_retryable (env : Env) (s : WState)
    (himg : strTruthy s.user_image = true)
    (hfail : toolFailed (env.classify s.retry_count) = true)
    (hlt : s.retry_count < env.max_retries) :
    (classifying_node env s).next_action = some "retry"
    ∧ (classifying_node env s).retry_count = s.retry_count + 1
    ∧ (classifying_node env s).user_image = s.user_image := by
  rcases hres : env.classify s.retry_count with p | e | _ | e
  · rw [hres] at hfail; simp [toolFailed] at hfail
  all_goals
    refine ⟨?_, ?_, ?_⟩ <;>
      simp [classifying_node, himg, update_state_node, add_message_to_state, hres,
        classifyFailure, classifyRaised, can_retry, hlt]

theorem classifying_fail_fatal (env : Env) (s : WState)
    (himg : strTruthy s.user_image = true)
    (hfail : toolFailed (env.classify s.retry_count) = true)
    (hge : ¬ s.retry_count < env.max_retries) :
    (classifying_node env s).next_action = some "error" := by
  rcases hres : env.classify s.retry_count with p | e | _ | e
  · rw [hres] at hfail; simp [toolFailed] at hfail
  all_goals
    simp [classifying_node, himg, update_state_node, add_message_to_state, hres,
      classifyFailure, classifyRaised, can_retry, hge, set_error]

theorem runLoop_classifying_fails (env : Env)
    (hfail : ∀ r, toolFailed (env.classify r) = true) :
    ∀ (k fuel : Nat) (s : WState), strTruthy s.user_image = true →
      s.retry_count + k = env.max_retries → k + 2 ≤ fuel →
      ∃ sf : WState,
        runLoop env fuel NodeId.classifying s
          = (List.replicate (k + 1) NodeId.classifying ++ [NodeId.errorNode], sf, Outcome.finished)
        ∧ sf.is_complete = true := by
  intro k
  induction k with
  | zero =>
    intro fuel s himg hrc hfuel
    obtain ⟨f, rfl⟩ : ∃ f, fuel = f + 1 := ⟨fuel - 1, by omega⟩
    have herr : (classifying_node env s).next_action = some "error" :=
      classifying_fail_fatal env s himg (hfail _) (by omega)
    have hroute : routeFrom NodeId.classifying (executeNode env NodeId.classifying s) = "error" := by
      simp [routeFrom, executeNode, route_from_classifying, herr]
    have hlk : alookup (edgesFor NodeId.classifying) (routeFrom NodeId.classifying
        (executeNode env NodeId.classifying s)) = some NodeId.errorNode := by
      rw [hroute]; decide
    obtain ⟨hrun, hc⟩ := runLoop_error_run env f (executeNode env NodeId.classifying s) (by omega)
    refine ⟨error_node (executeNode env NodeId.classifying s), ?_, hc⟩
    rw [runLoop_step env f NodeId.classifying s NodeId.errorNode (by decide) hlk, hrun]
    simp
  | succ k ih =>
    intro fuel s himg hrc hfuel
    obtain ⟨f, rfl⟩ : ∃ f, fuel = f + 1 := ⟨fuel - 1, by omega⟩
    obtain ⟨hna, hrcnt, himg2⟩ :=
      classifying_fail_retryable env s himg (hfail _) (by omega)
    have hroute : routeFrom NodeId.classifying (executeNode env NodeId.classifying s) = "retry" := by
      simp [routeFrom, executeNode, route_from_classifying, hna]
    have hlk : alookup (edgesFor NodeId.classifying) (routeFrom NodeId.classifying
        (executeNode env NodeId.classifying s)) = some NodeId.classifying := by
      rw [hroute]; decide
    obtain ⟨sf, hrun, hc⟩ := ih f (classifying_node env s)
      (by rw [himg2]; exact himg) (by rw [hrcnt]; omega) (by omega)
    refine ⟨sf, ?_, hc⟩
    rw [runLoop_step env f NodeId.classifying s NodeId.classifying (by decide) hlk]
    simp only [executeNode] at hrun ⊢
    rw [hrun]
    simp [List.replicate_succ]

theorem prescribing_fail_retryable (env : Env) (s : WState)
    (hcls : s.classification_results.isSome = true)
    (hfail : toolFailed (env.prescribe s.retry_count) = true)
    (hlt : s.retry_count < env.max_retries) :
    (prescribing_node env s).next_action = some "retry"
    ∧ (prescribing_node env s).retry_count = s.retry_count + 1
    ∧ (prescribing_node env s).classification_results = s.classification_results := by
  obtain ⟨cr, hcr0⟩ := Option.isSome_iff_exists.mp hcls
  rcases hres : env.prescribe s.retry_count with p | e | _ | e
  · rw [hres] at hfail; simp [toolFailed] at hfail
  all_goals
    refine ⟨?_, ?_, ?_⟩ <;>
      simp [prescribing_node, hcr0, update_state_node, add_message_to_state, hres,
        prescribeFailure, prescribeRaised, can_retry, hlt]

theorem prescribing_fail_fatal (env : Env) (s : WState)
    (hcls : s.classification_results.isSome = true)
    (hfail : toolFailed (env.prescribe s.retry_count) = true)
    (hge : ¬ s.retry_count < env.max_retries) :
    (prescribing_node env s).next_action = some "error" := by
  obtain ⟨cr, hcr0⟩ := Option.isSome_iff_exists.mp hcls
  rcases hres : env.prescribe s.retry_count with p | e | _ | e
  · rw [hres] at hfail; simp [toolFailed] at hfail
  all_goals
    simp [prescribing_node, hcr0, update_state_node, add_message_to_state, hres,
      prescribeFailure, prescribeRaised, can_retry, hge, set_error]

theorem runLoop_prescribing_fails (env : Env)
    (hfail : ∀ r, toolFailed (env.prescribe r) = true) :
    ∀ (k fuel : Nat) (s : WState), s.classification_results.isSome = true →
      s.retry_count + k = env.max_retries → k + 2 ≤ fuel →
      ∃ sf : WState,
        runLoop env fuel NodeId.prescribing s
          = (List.replicate (k + 1) NodeId.prescribing ++ [NodeId.errorNode], sf, Outcome.finished)
        ∧ sf.is_complete = true := by
  intro k
  induction k with
  | zero =>
    intro fuel s hcls hrc hfuel
    obtain ⟨f, rfl⟩ : ∃ f, fuel = f + 1 := ⟨fuel - 1, by omega⟩
    have herr : (prescribing_node env s).next_action = some "error" :=
      prescribing_fail_fatal env s hcls (hfail _) (by omega)
    have hlk : alookup (edgesFor NodeId.prescribing) (routeFrom NodeId.prescribing
        (executeNode env NodeId.prescribing s)) = some NodeId.errorNode := by
      have hroute : routeFrom NodeId.prescribing (executeNode env NodeId.prescribing s)
          = "error" := by
        simp [routeFrom, executeNode, route_from_prescribing, herr]
      rw [hroute]; decide
    obtain ⟨hrun, hc⟩ := runLoop_error_run env f (executeNode env NodeId.prescribing s) (by omega)
    refine ⟨error_node (executeNode env NodeId.prescribing s), ?_, hc⟩
    rw [runLoop_step env f NodeId.prescribing s NodeId.errorNode (by decide) hlk, hrun]
    simp
  | succ k ih =>
    intro fuel s hcls hrc hfuel
    obtain ⟨f, rfl⟩ : ∃ f, fuel = f + 1 := ⟨fuel - 1, by omega⟩
    obtain ⟨hna, hrcnt, hcls2⟩ :=
      prescribing_fail_retryable env s hcls (hfail _) (by omega)
    have hlk : alookup (edgesFor NodeId.prescribing) (routeFrom NodeId.prescribing
        (executeNode env NodeId.prescribing s)) = some NodeId.prescribing := by
      have hroute : routeFrom NodeId.prescribing (executeNode env NodeId.prescribing s)
          = "retry" := by
        simp [routeFrom, executeNode, route_from_prescribing, hna]
      rw [hroute]; decide
    obtain ⟨sf, hrun, hc⟩ := ih f (prescribing_node env s)
      (by rw [hcls2]; exact hcls) (by rw [hrcnt]; omega) (by omega)
    refine ⟨sf, ?_, hc⟩
    rw [runLoop_step env f NodeId.prescribing s NodeId.prescribing (by decide) hlk]
    simp only [executeNode] at hrun ⊢
    rw [hrun]
    simp [List.replicate_succ]

/-- C1: a stateful node whose adapter fails on every attempt reaches the Error
terminal after exactly `ceiling + 1` executions of that node and never more —
the run trace is precisely `ceiling + 1` copies of the node followed by the
Error node.  Each failed retryable attempt sets `next_action = "retry"` and
increments `retry_count` (see `classifying_fail_retryable` /
`prescribing_fail_retryable`), so `retry_count` reaches the ceiling and the
node routes to Error. -/
theorem retry_bound (env : Env) :
    (∀ (fuel : Nat) (s : WState), (∀ r, toolFailed (env.classify r) = true) →
      strTruthy s.user_image = true → s.retry_count = 0 → env.max_retries + 2 ≤ fuel →
      ∃ sf : WState,
        runLoop env fuel NodeId.classifying s
          = (List.replicate (env.max_retries + 1) NodeId.classifying ++ [NodeId.errorNode],
             sf, Outcome.finished)
        ∧ sf.is_complete = true)
    ∧ (∀ (fuel : Nat) (s : WState), (∀ r, toolFailed (env.prescribe r) = true) →
      s.classification_results.isSome = true → s.retry_count = 0 → env.max_retries + 2 ≤ fuel →
      ∃ sf : WState,
        runLoop env fuel NodeId.prescribing s
          = (List.replicate (env.max_retries + 1) NodeId.prescribing ++ [NodeId.errorNode],
             sf, Outcome.finished)
        ∧ sf.is_complete = true) := by
  constructor
  · intro fuel s hf himg hrc hfuel
    exact runLoop_classifying_fails env hf env.max_retries fuel s himg (by omega) hfuel
  · intro fuel s hf hcls hrc hfuel
    exact runLoop_prescribing_fails env hf env.max_retries fuel s hcls (by omega) hfuel

/-- C1 witness: with ceiling 3, an always-failing classification adapter
produces exactly four Classifying executions and then the Error terminal. -/
theorem retry_bound_witness :
    ∃ sf : WState,
      runLoop { classify := fun _ => ToolRes.errPayload "boom", max_retries := 3 } 10
          NodeId.classifying { session_id := "w1", user_message := "hi", user_image := some "IMG" }
        = (List.replicate 4 NodeId.classifying ++ [NodeId.errorNode], sf, Outcome.finished)
      ∧ sf.is_complete = true :=
  (retry_bound { classify := fun _ => ToolRes.errPayload "boom", max_retries := 3 }).1
    10 { session_id := "w1", user_message := "hi", user_image := some "IMG" }
    (fun _ => rfl) (by decide) (by decide) (by decide)

/-! ## C2: pause on `requires_user_input` -/

/-- A tool outcome that models a raised exception. -/
def toolRaised {α : Type} : ToolRes α → Bool
  | .raised _ => true
  | _ => false

theorem applyContextExtraction_user_image (s : WState) (cr : CtxResult) :
    (applyContextExtraction s cr).user_image = s.user_image := by
  simp only [applyContextExtraction]
  split_ifs <;> rfl

theorem determineNextAction_request_image (s : WState) (ui : Intent) (ga : String)
    (hw : ui.wants_classification = true) (hi : strTruthy s.user_image = false) :
    (determineNextAction s ui ga).next_action = some "request_image"
    ∧ (determineNextAction s ui ga).requires_user_input = true := by
  constructor <;> simp [determineNextAction, hw, hi, add_message_to_state]

theorem initial_requests_image (env : Env) (s : WState)
    (hw : env.intent.wants_classification = true)
    (hi : strTruthy s.user_image = false)
    (hnr : toolRaised env.context_extract = false) :
    (initial_node env s).next_action = some "request_image"
    ∧ (initial_node env s).requires_user_input = true := by
  rcases hc : env.context_extract with cr | e | _ | e
  case raised => rw [hc] at hnr; simp [toolRaised] at hnr
  case ok =>
    have hX : (applyContextExtraction
        { update_state_node s ("initial") with user_intent := some env.intent } cr).user_image
          = s.user_image := by
      rw [applyContextExtraction_user_image]; simp [update_state_node]
    simp only [initial_node, hc]
    split_ifs <;>
      exact determineNextAction_request_image _ _ _ hw (by simpa [hX] using hi)
  all_goals
    simp only [initial_node, hc]
    split_ifs <;>
      exact determineNextAction_request_image _ _ _ hw
        (by simpa [update_state_node] using hi)

theorem alookup_mem {α : Type} (l : List (String × α)) (key : String) (v : α)
    (h : alookup l key = some v) : (key, v) ∈ l := by
  induction l with
  | nil => simp [alookup] at h
  | cons kv rest ih =>
    by_cases hk : kv.1 = key
    · simp only [alookup, hk, beq_self_eq_true, if_pos, Option.some.injEq] at h
      subst hk; subst h; exact List.mem_cons_self _ _
    · have hb : (kv.1 == key) = false := by simp [hk]
      simp only [alookup, hb, Bool.false_eq_true, if_false] at h
      exact List.mem_cons_of_mem _ (ih h)

theorem runLoop_head (env : Env) (fuel : Nat) (n : NodeId) (s : WState)
    (hn : (n == NodeId.completed || n == NodeId.errorNode) = false) :
    ∃ t, (runLoop env (fuel + 1) n s).1 = n :: t := by
  cases hlk : alookup (edgesFor n) (routeFrom n (executeNode env n s)) with
  | none => exact ⟨[], by rw [runLoop_stuck env fuel n s hn hlk]⟩
  | some nx => exact ⟨_, by rw [runLoop_step env fuel n s nx hn hlk]⟩

/-- C2 counterexample: a fresh session whose message wants classification but
carries no image.  The Initial node sets `requires_user_input = true`, yet the
run does not stop there: the Followup node is executed in the same invocation
(the trace has two executed nodes), refuting the claim that once
`requires_user_input` is set no further node executes. -/
theorem pause_on_user_input_counterexample :
    (executeNode { intent := { wants_classification := true } } NodeId.initial
        (create_initial_state ("s1") ("please diagnose my crop") none [])).requires_user_input
      = true
    ∧ (runLoop { intent := { wants_classification := true } } 25 NodeId.initial
        (create_initial_state ("s1") ("please diagnose my crop") none [])).1
      = [NodeId.initial, NodeId.followup]
    ∧ (runLoop { intent := { wants_classification := true } } 25 NodeId.initial
        (create_initial_state ("s1") ("please diagnose my crop") none [])).2.2
      = Outcome.undefinedBranch ("followup") := by
  refine ⟨by decide, by decide, by decide⟩

/-- C2 amended: setting `requires_user_input` does not pause the run; the
router's resolved next node is entered and executed within the same
invocation.  In particular, whenever Initial takes the request-image path
(intent wants classification, no truthy image, context extractor does not
raise), the state carries `requires_user_input = true` after Initial and the
run trace nevertheless continues with the Followup node executing next.
`requires_user_input` is only reported back to the caller after the run
ends. -/
theorem pause_on_user_input_amended (env : Env) (s : WState) (fuel : Nat)
    (hw : env.intent.wants_classification = true)
    (hi : strTruthy s.user_image = false)
    (hnr : toolRaised env.context_extract = false) :
    (executeNode env NodeId.initial s).requires_user_input = true
    ∧ ∃ rest, (runLoop env (fuel + 2) NodeId.initial s).1
        = NodeId.initial :: NodeId.followup :: rest := by
  obtain ⟨hna, hreq⟩ := initial_requests_image env s hw hi hnr
  refine ⟨hreq, ?_⟩
  have hroute : routeFrom NodeId.initial (executeNode env NodeId.initial s) = "followup" := by
    simp [routeFrom, executeNode, route_from_initial, hna]
  have hlk : alookup (edgesFor NodeId.initial)
      (routeFrom NodeId.initial (executeNode env NodeId.initial s)) = some NodeId.followup := by
    rw [hroute]; decide
  obtain ⟨t, ht⟩ := runLoop_head env fuel NodeId.followup
    (executeNode env NodeId.initial s) (by decide)
  refine ⟨t, ?_⟩
  rw [runLoop_step env (fuel + 1) NodeId.initial s NodeId.followup (by decide) hlk]
  simpa using ht

/-- C2 amended witness: the concrete request-image session continues into
Followup. -/
theorem pause_on_user_input_amended_witness :
    (executeNode { intent := { wants_classification := true } } NodeId.initial
        (create_initial_state ("s1") ("please diagnose my crop") none [])).requires_user_input
      = true
    ∧ ∃ rest, (runLoop { intent := { wants_classification := true } } 25 NodeId.initial
        (create_initial_state ("s1") ("please diagnose my crop") none [])).1
      = NodeId.initial :: NodeId.followup :: rest :=
  pause_on_user_input_amended { intent := { wants_classification := true } }
    (create_initial_state ("s1") ("please diagnose my crop") none []) 23
    rfl (by decide) rfl

/-! ## C3: router totality -/

/-- C3 counterexample: a Followup execution on a message with none of the
dispatch keywords sets `next_action = "general_help"`; the Followup router
then returns the branch name `"followup"`, which is not a key of the edge
mapping registered for the followup node in `_build_workflow` — an undefined
transition, refuting router totality. -/
theorem router_totality_counterexample :
    (followup_node {} { session_id := "s3", user_message := "hello there" }).next_action
      = some "general_help"
    ∧ route_from_followup (followup_node {} { session_id := "s3", user_message := "hello there" })
      = "followup"
    ∧ alookup (edgesFor NodeId.followup) ("followup") = none := by
  refine ⟨by decide, by decide, by decide⟩

/-- C3 amended: the routers of Initial, Classifying, Prescribing, VendorQuery,
ShowVendors and OrderBooking always return branch names defined in their
nodes' registered edge mappings (their fallbacks lead to Completed, or to
Followup for VendorQuery — not to Followup-or-Error as claimed); the Followup
router, however, returns the unregistered branch `"followup"` exactly for the
reachable actions `request_image`, `classify_first`, `prescribe_first` and
`general_help`, and a defined branch for every other action. -/
theorem router_totality_amended :
    (∀ s : WState, (alookup (edgesFor NodeId.initial) (route_from_initial s)).isSome = true)
    ∧ (∀ s : WState,
        (alookup (edgesFor NodeId.classifying) (route_from_classifying s)).isSome = true)
    ∧ (∀ s : WState,
        (alookup (edgesFor NodeId.prescribing) (route_from_prescribing s)).isSome = true)
    ∧ (∀ s : WState,
        (alookup (edgesFor NodeId.vendorQuery) (route_from_vendor_query s)).isSome = true)
    ∧ (∀ s : WState,
        (alookup (edgesFor NodeId.showVendors) (route_from_show_vendors s)).isSome = true)
    ∧ (∀ s : WState,
        (alookup (edgesFor NodeId.orderBooking) (route_from_order_booking s)).isSome = true)
    ∧ (∀ s : WState,
        (s.next_action = some "request_image" ∨ s.next_action = some "classify_first"
          ∨ s.next_action = some "prescribe_first" ∨ s.next_action = some "general_help") →
        route_from_followup s = "followup"
        ∧ alookup (edgesFor NodeId.followup) (route_from_followup s) = none)
    ∧ (∀ s : WState,
        ¬ (s.next_action = some "request_image" ∨ s.next_action = some "classify_first"
          ∨ s.next_action = some "prescribe_first" ∨ s.next_action = some "general_help") →
        (alookup (edgesFor NodeId.followup) (route_from_followup s)).isSome = true) := by
  refine ⟨?_, ?_, ?_, ?_, ?_, ?_, ?_, ?_⟩
  · intro s; simp only [route_from_initial]; split_ifs <;> decide
  · intro s; simp only [route_from_classifying]; split_ifs <;> decide
  · intro s; simp only [route_from_prescribing]; split_ifs <;> decide
  · intro s; simp only [route_from_vendor_query]; split_ifs <;> decide
  · intro s; simp only [route_from_show_vendors]; split_ifs <;> decide
  · intro s; simp only [route_from_order_booking]; split_ifs <;> decide
  · intro s h
    have hr : route_from_followup s = "followup" := by
      rcases h with h | h | h | h <;> (simp only [route_from_followup, h]; decide)
    exact ⟨hr, by rw [hr]; decide⟩
  · intro s h
    rcases hna : s.next_action with _ | a
    · simp only [route_from_followup, hna]; decide
    · rw [hna] at h
      have hroute : route_from_followup s = (alookup followupRoutingMap a).getD "completed" := by
        simp [route_from_followup, hna]
      rcases hlk : alookup followupRoutingMap a with _ | v
      · rw [hroute, hlk]; decide
      · have hmem := alookup_mem followupRoutingMap a v hlk
        rw [hroute, hlk]
        fin_cases hmem <;> first | decide | (exfalso; exact h (by simp))

/-- C3 amended witness: concrete states exercising a defined branch and the
undefined `"followup"` branch. -/
theorem router_totality_amended_witness :
    (alookup (edgesFor NodeId.initial)
        (route_from_initial { session_id := "w3", next_action := some "classify" })).isSome = true
    ∧ route_from_followup { session_id := "w3", next_action := some "general_help" } = "followup"
    ∧ alookup (edgesFor NodeId.followup)
        (route_from_followup { session_id := "w3", next_action := some "general_help" }) = none :=
  ⟨router_totality_amended.1 { session_id := "w3", next_action := some "classify" },
   (router_totality_amended.2.2.2.2.2.2.1 { session_id := "w3", next_action := some "general_help" }
      (Or.inr (Or.inr (Or.inr rfl)))).1,
   (router_totality_amended.2.2.2.2.2.2.1 { session_id := "w3", next_action := some "general_help" }
      (Or.inr (Or.inr (Or.inr rfl)))).2⟩

/-! ## C6: delta streaming -/

theorem aerase_eq_self {α : Type} (d : List (String × α)) (k : String)
    (h : ∀ kv ∈ d, kv.1 ≠ k) : aerase d k = d :=
  List.filter_eq_self.mpr (fun kv hkv => by simpa using h kv hkv)

theorem ite_pair_clean (k0 : String) (v0 : V) :
    (if k0 == "classification_results" then (k0, cleanClassification v0)
     else ((k0, v0) : String × V))
      = (k0, if k0 == "classification_results" then cleanClassification v0 else v0) := by
  by_cases h : k0 = "classification_results" <;> simp [h]

theorem alookup_mapClean (d : Dict) (key : String) :
    alookup (d.map (fun kv =>
        if kv.1 == "classification_results" then (kv.1, cleanClassification kv.2) else kv)) key
      = if key == "classification_results" then (alookup d key).map cleanClassification
        else alookup d key := by
  induction d with
  | nil => split <;> simp [alookup]
  | cons kv rest ih =>
    rcases kv with ⟨k0, v0⟩
    simp only [List.map_cons]
    rw [ite_pair_clean]
    by_cases h1 : k0 = "classification_results"
    · subst h1
      by_cases h2 : key = "classification_results"
      · subst h2; simp [alookup, ih]
      · simp [alookup, h2, Ne.symm h2] at ih ⊢
        exact ih
    · by_cases h2 : key = k0
      · subst h2; simp [alookup, ih, h1]
      · simp [alookup, h1, h2, Ne.symm h2] at ih ⊢
        exact ih

theorem akeys_mapClean (d : Dict) :
    akeys (d.map (fun kv =>
        if kv.1 == "classification_results" then (kv.1, cleanClassification kv.2) else kv))
      = akeys d := by
  induction d with
  | nil => rfl
  | cons kv rest ih =>
    by_cases h1 : kv.1 = "classification_results" <;> simp_all [akeys]

theorem akeys_filterKey {α : Type} (d : List (String × α)) (p : String → Bool) :
    akeys (d.filter (fun kv => p kv.1)) = (akeys d).filter p := by
  induction d with
  | nil => rfl
  | cons kv rest ih =>
    by_cases h : p kv.1 <;> simp_all [akeys]

set_option maxHeartbeats 1000000 in
theorem filterChunk_alookup (d : Dict) (key : String) :
    alookup (filterChunkForStreaming d) key =
      if excludedKeys.contains key then none
      else if key == "classification_results" then (alookup d key).map cleanClassification
      else alookup d key := by
  simp only [filterChunkForStreaming, alookup_aerase, alookup_mapClean]
  by_cases h1 : key = "user_image" <;> by_cases h2 : key = "image" <;>
    by_cases h3 : key = "attention_overlay" <;> by_cases h4 : key = "messages" <;>
      by_cases h5 : key = "last_update_time" <;> by_cases h6 : key = "classification_results" <;>
        simp_all [excludedKeys]

theorem filterChunk_keys (d : Dict)
    (hd : ∀ kv ∈ d, excludedKeys.contains kv.1 = false) :
    akeys (filterChunkForStreaming d) = akeys d := by
  have hne : ∀ (k : String), k ∈ excludedKeys → ∀ kv ∈ d, kv.1 ≠ k := by
    intro k hk kv hkv he
    have := hd kv hkv
    rw [he] at this
    simp [List.elem_iff, hk] at this
  simp only [filterChunkForStreaming]
  rw [aerase_eq_self _ _ (fun kv hkv => hne ("user_image") (by decide) kv hkv)]
  rw [aerase_eq_self _ _ (fun kv hkv => hne ("image") (by decide) kv hkv)]
  rw [aerase_eq_self _ _ (fun kv hkv => hne ("attention_overlay") (by decide) kv hkv)]
  rw [aerase_eq_self _ _ (fun kv hkv => hne ("messages") (by decide) kv hkv)]
  rw [aerase_eq_self _ _ ?habs]
  · exact akeys_mapClean d
  · intro kv hkv
    obtain ⟨kv0, hkv0, hfst⟩ : ∃ kv0 ∈ d, kv.1 = kv0.1 := by
      obtain ⟨kv0, hkv0, rfl⟩ := List.mem_map.mp hkv
      refine ⟨kv0, hkv0, ?_⟩
      split <;> rfl
    rw [hfst]
    exact hne ("last_update_time") (by decide) kv0 hkv0

theorem streamGo_mem (snaps : List Dict) :
    ∀ (prev d : Dict), d ∈ streamGo prev snaps →
      ∃ c p, d = filterChunkForStreaming (calculateStateDelta c p) := by
  induction snaps with
  | nil => intro prev d hd; simp [streamGo] at hd
  | cons c rest ih =>
    intro prev d hd
    simp only [streamGo] at hd
    split at hd
    · exact ih _ _ hd
    · split at hd
      · exact ih _ _ hd
      · rcases List.mem_cons.mp hd with rfl | hd2
        · exact ⟨c, prev, rfl⟩
        · exact ih _ _ hd2

/-- C6 counterexample: a snapshot whose `classification_results` carries
`raw_predictions`.  The first emission is not the full snapshot minus the
excluded fields (image payloads, attention overlay, messages, timestamp): the
filter additionally strips the verbose `raw_predictions` subfield out of
`classification_results`. -/
theorem delta_streaming_counterexample :
    streamDeltas
        [[("current_node", V.prim (P.pstr "initial")),
          ("user_image", V.prim (P.pstr "IMG")),
          ("classification_results",
            V.vobj [("disease_name", P.pstr "blight"), ("raw_predictions", P.pstr "RAW")])]]
      = [[("current_node", V.prim (P.pstr "initial")),
          ("classification_results", V.vobj [("disease_name", P.pstr "blight")])]]
    ∧ createCleanStateCopy
        [("current_node", V.prim (P.pstr "initial")),
          ("user_image", V.prim (P.pstr "IMG")),
          ("classification_results",
            V.vobj [("disease_name", P.pstr "blight"), ("raw_predictions", P.pstr "RAW")])]
      = [("current_node", V.prim (P.pstr "initial")),
          ("classification_results",
            V.vobj [("disease_name", P.pstr "blight"), ("raw_predictions", P.pstr "RAW")])]
    ∧ streamDeltas
        [[("current_node", V.prim (P.pstr "initial")),
          ("user_image", V.prim (P.pstr "IMG")),
          ("classification_results",
            V.vobj [("disease_name", P.pstr "blight"), ("raw_predictions", P.pstr "RAW")])]]
      ≠ [createCleanStateCopy
          [("current_node", V.prim (P.pstr "initial")),
            ("user_image", V.prim (P.pstr "IMG")),
            ("classification_results",
              V.vobj [("disease_name", P.pstr "blight"), ("raw_predictions", P.pstr "RAW")])]] := by
  refine ⟨by decide, by decide, by decide⟩

/-- C6 amended: (i) no emitted `state_update` ever contains the excluded keys
(image payloads, `attention_overlay`, `messages`, `last_update_time`), and any
emitted `classification_results` dict is free of `raw_predictions`,
`plant_context` and `attention_overlay`; (ii) the first emission is the first
snapshot minus the excluded keys, with all other values preserved except that
`classification_results` is cleaned of its verbose subfields; (iii) each later
step's emission contains exactly the non-excluded keys of the current snapshot
whose value is new or changed by structural comparison against the previous
snapshot. -/
theorem delta_streaming_amended :
    (∀ (snaps : List Dict) (d : Dict), d ∈ streamDeltas snaps →
      (∀ k, excludedKeys.contains k = true → alookup d k = none)
      ∧ (∀ cd, alookup d ("classification_results") = some (V.vobj cd) →
          ∀ k2, verboseFields.contains k2 = true → alookup cd k2 = none))
    ∧ (∀ (c : Dict) (rest : List Dict),
        filterChunkForStreaming (createCleanStateCopy c) ≠ [] →
        streamDeltas (c :: rest)
            = filterChunkForStreaming (createCleanStateCopy c)
                :: streamGo (createCleanStateCopy c) rest
        ∧ akeys (filterChunkForStreaming (createCleanStateCopy c))
            = (akeys c).filter (fun k => !(excludedKeys.contains k))
        ∧ (∀ k, excludedKeys.contains k = false → (k == "classification_results") = false →
            alookup (filterChunkForStreaming (createCleanStateCopy c)) k = alookup c k)
        ∧ alookup (filterChunkForStreaming (createCleanStateCopy c)) ("classification_results")
            = (alookup c ("classification_results")).map cleanClassification)
    ∧ (∀ (prev cur : Dict), createCleanStateCopy prev ≠ [] →
        akeys (filterChunkForStreaming (calculateStateDelta cur (createCleanStateCopy prev)))
          = akeys (cur.filter (fun kv =>
              !(excludedKeys.contains kv.1) && (alookup prev kv.1 != some kv.2)))) := by
  refine ⟨?_, ?_, ?_⟩
  · intro snaps d hd
    obtain ⟨c, p, rfl⟩ := streamGo_mem snaps [] d hd
    constructor
    · intro k hk
      rw [filterChunk_alookup, hk]
      simp
    · intro cd hcd k2 hk2
      rw [filterChunk_alookup] at hcd
      simp only [show excludedKeys.contains ("classification_results") = false from by decide,
        Bool.false_eq_true, if_false, beq_self_eq_true, if_true] at hcd
      rcases halk : alookup (calculateStateDelta c p) ("classification_results") with _ | v
      · rw [halk] at hcd; simp at hcd
      · rw [halk] at hcd
        rw [show Option.map cleanClassification (some v) = some (cleanClassification v)
          from rfl] at hcd
        injection hcd with hcd
        cases v with
        | prim p0 => simp [cleanClassification] at hcd
        | vobj d0 =>
          simp only [cleanClassification, V.vobj.injEq] at hcd
          subst hcd
          have hk2m : k2 ∈ verboseFields := by simpa using hk2
          simpa [hk2m] using alookup_filterKeys d0 verboseFields k2
  · intro c rest hne
    have hdelta : calculateStateDelta c [] = createCleanStateCopy c := rfl
    have hdne : (calculateStateDelta c []).isEmpty = false := by
      rw [hdelta]
      by_cases hcc : createCleanStateCopy c = []
      · exact absurd (by rw [hcc]; rfl) hne
      · simp [List.isEmpty_iff, hcc]
    have hfe : (filterChunkForStreaming (calculateStateDelta c [])).isEmpty = false := by
      rw [hdelta]
      simp [List.isEmpty_iff, hne]
    have hclean : ∀ kv ∈ createCleanStateCopy c, excludedKeys.contains kv.1 = false := by
      intro kv hkv
      simpa using (List.mem_filter.mp hkv).2
    refine ⟨?_, ?_, ?_, ?_⟩
    · simp only [streamDeltas, streamGo, hdne, Bool.false_eq_true, if_false, hfe]
      rw [hdelta]
    · rw [filterChunk_keys _ hclean]
      exact akeys_filterKey c (fun k => !(excludedKeys.contains k))
    · intro k hk1 hk2
      rw [filterChunk_alookup, hk1]
      have hk1m : ¬ k ∈ excludedKeys := by simpa using hk1
      simp only [Bool.false_eq_true, if_false, hk2]
      simpa [createCleanStateCopy, hk1m] using alookup_filterKeys c excludedKeys k
    · rw [filterChunk_alookup]
      simp only [show excludedKeys.contains ("classification_results") = false from by decide,
        Bool.false_eq_true, if_false, beq_self_eq_true, if_true]
      have hlk := alookup_filterKeys c excludedKeys ("classification_results")
      rw [show excludedKeys.contains ("classification_results") = false from by decide] at hlk
      simp only [Bool.false_eq_true, if_false] at hlk
      rw [createCleanStateCopy, hlk]
  · intro prev cur hprev
    have hpne : (createCleanStateCopy prev).isEmpty = false := by
      simp [List.isEmpty_iff, hprev]
    have hdelta2 : calculateStateDelta cur (createCleanStateCopy prev)
        = cur.filter (fun kv =>
            !(excludedKeys.contains kv.1) && (alookup prev kv.1 != some kv.2)) := by
      simp only [calculateStateDelta, hpne, Bool.false_eq_true, if_false]
      apply List.filter_congr
      intro kv _
      by_cases hex : excludedKeys.contains kv.1 = true
      · have hexm : kv.1 ∈ excludedKeys := by simpa using hex
        simp [hexm]
      · have hex2 : excludedKeys.contains kv.1 = false := by
          simpa using hex
        have hlk := alookup_filterKeys prev excludedKeys kv.1
        rw [hex2] at hlk
        simp only [Bool.false_eq_true, if_false] at hlk
        rw [createCleanStateCopy, hlk]
        rcases halk : alookup prev kv.1 with _ | v
        · simp [halk]
        · rfl
    rw [hdelta2]
    apply filterChunk_keys
    intro kv hkv
    have h := (List.mem_filter.mp hkv).2
    have h2 := (Bool.and_eq_true _ _).mp h
    simpa using h2.1

/-- C6 amended witness: a concrete two-snapshot stream exercising the first
emission, a later delta, and the exclusion guarantee. -/
theorem delta_streaming_amended_witness :
    alookup [(("a" : String), V.prim (P.pstr "1"))] ("user_image") = none
    ∧ streamDeltas
        [[("a", V.prim (P.pstr "1")), ("user_image", V.prim (P.pstr "IMG"))],
         [("a", V.prim (P.pstr "2")), ("user_image", V.prim (P.pstr "IMG"))]]
      = filterChunkForStreaming (createCleanStateCopy
          [("a", V.prim (P.pstr "1")), ("user_image", V.prim (P.pstr "IMG"))])
        :: streamGo (createCleanStateCopy
          [("a", V.prim (P.pstr "1")), ("user_image", V.prim (P.pstr "IMG"))])
          [[("a", V.prim (P.pstr "2")), ("user_image", V.prim (P.pstr "IMG"))]]
    ∧ akeys (filterChunkForStreaming (calculateStateDelta
          [("a", V.prim (P.pstr "2")), ("user_image", V.prim (P.pstr "IMG"))]
          (createCleanStateCopy
            [("a", V.prim (P.pstr "1")), ("user_image", V.prim (P.pstr "IMG"))])))
      = akeys (([("a", V.prim (P.pstr "2")),
            ("user_image", V.prim (P.pstr "IMG"))] : Dict).filter (fun kv =>
          !(excludedKeys.contains kv.1)
            && (alookup [("a", V.prim (P.pstr "1")), ("user_image", V.prim (P.pstr "IMG"))] kv.1
                  != some kv.2))) :=
  ⟨(delta_streaming_amended.1
      [[("a", V.prim (P.pstr "1")), ("user_image", V.prim (P.pstr "IMG"))],
       [("a", V.prim (P.pstr "2")), ("user_image", V.prim (P.pstr "IMG"))]]
      [("a", V.prim (P.pstr "1"))] (by decide)).1 ("user_image") (by decide),
   (delta_streaming_amended.2.1
      [("a", V.prim (P.pstr "1")), ("user_image", V.prim (P.pstr "IMG"))]
      [[("a", V.prim (P.pstr "2")), ("user_image", V.prim (P.pstr "IMG"))]]
      (by decide)).1,
   delta_streaming_amended.2.2
      [("a", V.prim (P.pstr "1")), ("user_image", V.prim (P.pstr "IMG"))]
      [("a", V.prim (P.pstr "2")), ("user_image", V.prim (P.pstr "IMG"))]
      (by decide)⟩

/-- C8 counterexample: the completed node registered by `_build_workflow`
(`langgraph_workflow._completed_node`) marks `is_complete = true` even though
the goodbye-intent check on the current user message fails — it performs no
goodbye check at all, refuting the claimed if-and-only-if gating. -/
theorem completed_gating_counterexample :
    detect_goodbye_intent { goodbye_llm := some "NO" }
        { session_id := "s8", user_message := "tell me more",
          previous_node := some "prescribing" } = false
    ∧ (workflow_completed_node
        { session_id := "s8", user_message := "tell me more",
          previous_node := some "prescribing" }).is_complete = true := by
  refine ⟨by decide, by decide⟩

theorem mem_followUpTake {α β : Type} (cands : List (α × β)) (p : α × β → Bool) (t : β)
    (ht : t ∈ ((cands.filter p).map (fun c => c.2)).take 3) :
    ∃ g, (g, t) ∈ cands ∧ p (g, t) = true := by
  have ht2 := List.take_subset 3 _ ht
  obtain ⟨c, hc, rfl⟩ := List.mem_map.mp ht2
  obtain ⟨hmem, hp⟩ := List.mem_filter.mp hc
  exact ⟨c.1, hmem, hp⟩

/-- C8 amended: the class-based `CompletedNode.execute` behaves as the claim
states — it sets `is_complete` exactly to the goodbye-intent result and its
follow-up list has at most three entries, each guarded by keywords none of
which occur in the transcript's prior user messages; the inline
`_completed_node` actually registered in the built workflow generates the
same kind of capped, deduplicated follow-ups but marks `is_complete = true`
unconditionally, with no goodbye check. -/
theorem completed_gating (env : Env) (s : WState) :
    (completedNodeExecute env s).is_complete
        = detect_goodbye_intent env (update_state_node s ("completed"))
    ∧ (completedNodeFollowUps s).length ≤ 3
    ∧ (∀ t, t ∈ completedNodeFollowUps s →
        ∃ g, (g, t) ∈ completedNodeCandidates s
          ∧ already_asked (allUserText s) g = false)
    ∧ (workflow_completed_node s).is_complete = true
    ∧ (generate_follow_ups s).length ≤ 3
    ∧ (∀ t, t ∈ generate_follow_ups s →
        ∃ g, (g, t) ∈ followupCandidates s
          ∧ already_asked (allUserText s) g = false) := by
  refine ⟨?_, ?_, ?_, ?_, ?_, ?_⟩
  · simp [completedNodeExecute, add_message_to_state]
  · exact le_trans (List.length_take_le 3 _) (le_refl 3)
  · intro t ht
    obtain ⟨g, hmem, hp⟩ := mem_followUpTake _ _ t ht
    refine ⟨g, hmem, ?_⟩
    simpa using hp
  · simp [workflow_completed_node, add_message_to_state]
  · exact le_trans (List.length_take_le 3 _) (le_refl 3)
  · intro t ht
    obtain ⟨g, hmem, hp⟩ := mem_followUpTake _ _ t ht
    refine ⟨g, hmem, ?_⟩
    simpa using hp

/-- C8 amended witness: on a concrete non-goodbye state the class node leaves
the session open, the suggestions are capped and deduplicated, and the inline
node completes unconditionally. -/
theorem completed_gating_witness :
    (completedNodeExecute { goodbye_llm := some "NO" }
        { session_id := "w8", user_message := "tell me more" }).is_complete
      = detect_goodbye_intent { goodbye_llm := some "NO" }
          (update_state_node { session_id := "w8", user_message := "tell me more" } ("completed"))
    ∧ (completedNodeFollowUps { session_id := "w8", user_message := "tell me more" }).length ≤ 3
    ∧ (∃ g, (g, "🛡️ **RISK MANAGEMENT**: Explore comprehensive crop insurance and agricultural risk mitigation solutions")
          ∈ completedNodeCandidates { session_id := "w8", user_message := "tell me more" }
        ∧ already_asked (allUserText { session_id := "w8", user_message := "tell me more" }) g
            = false)
    ∧ (workflow_completed_node { session_id := "w8", user_message := "tell me more" }).is_complete
      = true :=
  ⟨(completed_gating { goodbye_llm := some "NO" }
      { session_id := "w8", user_message := "tell me more" }).1,
   (completed_gating { goodbye_llm := some "NO" }
      { session_id := "w8", user_message := "tell me more" }).2.1,
   (completed_gating { goodbye_llm := some "NO" }
      { session_id := "w8", user_message := "tell me more" }).2.2.1 _ (by decide),
   (completed_gating { goodbye_llm := some "NO" }
      { session_id := "w8", user_message := "tell me more" }).2.2.2.1⟩

/-! ## C4: idempotence of `get_or_create_state` -/

/-- C4: for every session, calling `get_or_create_state` twice with the same
`(session_id, message)` pair and no intervening save yields the same state,
whose transcript contains the just-added user message exactly once (the
function never writes to the store, and each call re-derives its result from
the persisted state, so the second call does not duplicate the entry). -/
theorem get_or_create_idempotent (store : Store) (sid msg : String)
    (img : Option String) (ctx : List (String × String)) :
    (∀ st : WState, load_state store sid = some st →
      countUserMsg st.messages msg = 0 →
      (get_or_create_state ((get_or_create_state store sid msg img ctx).2) sid msg img ctx).1
          = (get_or_create_state store sid msg img ctx).1
        ∧ (get_or_create_state store sid msg img ctx).2 = store
        ∧ countUserMsg (get_or_create_state store sid msg img ctx).1.messages msg = 1)
    ∧ (load_state store sid = none →
      (get_or_create_state ((get_or_create_state store sid msg img ctx).2) sid msg img ctx).1
          = (get_or_create_state store sid msg img ctx).1
        ∧ countUserMsg (get_or_create_state store sid msg img ctx).1.messages msg = 1) := by
  constructor
  · intro st hload hcount
    have hstore : (get_or_create_state store sid msg img ctx).2 = store := by
      simp [get_or_create_state, hload]
    refine ⟨by rw [hstore], hstore, ?_⟩
    simp only [get_or_create_state, hload]
    by_cases h1 : strTruthy img && !(strTruthy st.user_image) <;>
      by_cases h2 : strTruthy img = true <;>
        simp [h1, h2, countUserMsg_append, countUserMsg_single_match, hcount]
  · intro hload
    have hstore : (get_or_create_state store sid msg img ctx).2 = store := by
      simp [get_or_create_state, hload]
    refine ⟨by rw [hstore], ?_⟩
    simp [get_or_create_state, hload, create_initial_state, countUserMsg]

/-- C4 witness: a persisted session whose transcript does not yet contain the
new message; repeating the call does not duplicate it. -/
theorem get_or_create_idempotent_witness :
    (get_or_create_state
        ((get_or_create_state [("sid1", { session_id := "sid1", user_message := "old" })]
            ("sid1") ("hello") none []).2)
        ("sid1") ("hello") none []).1
      = (get_or_create_state [("sid1", { session_id := "sid1", user_message := "old" })]
          ("sid1") ("hello") none []).1
    ∧ countUserMsg
        (get_or_create_state [("sid1", { session_id := "sid1", user_message := "old" })]
          ("sid1") ("hello") none []).1.messages ("hello") = 1 := by
  have h := (get_or_create_idempotent
    [("sid1", { session_id := "sid1", user_message := "old" })] ("sid1") ("hello") none []).1
    { session_id := "sid1", user_message := "old" } (by decide) (by decide)
  exact ⟨h.1, h.2.2⟩

/-! ## C5: sticky image -/

/-- C5: a persisted session whose `user_image` is `X` keeps `X` when the next
turn passes no image to `get_or_create_state`; `user_image` changes only when
a turn explicitly supplies a (truthy) replacement image. -/
theorem sticky_image (store : Store) (sid msg : String) (ctx : List (String × String))
    (st : WState) (x : String) (hload : load_state store sid = some st)
    (hx : st.user_image = some x) :
    (get_or_create_state store sid msg none ctx).1.user_image = some x
    ∧ (∀ y : String, y ≠ "" →
        (get_or_create_state store sid msg (some y) ctx).1.user_image = some y)
    ∧ (get_or_create_state store sid msg (some "") ctx).1.user_image = some x := by
  refine ⟨?_, ?_, ?_⟩
  · simp [get_or_create_state, hload, strTruthy, hx]
  · intro y hy
    have hty : strTruthy (some y) = true := by simp [strTruthy, hy]
    by_cases h : strTruthy st.user_image <;>
      simp [get_or_create_state, hload, hty, h]
  · simp [get_or_create_state, hload, strTruthy, hx]

/-! ## C7: missing-input errors are fatal and never retried -/

/-- C7: a Classifying execution on a state without a (truthy) image, and a
Prescribing execution on a state without classification results, set the
corresponding fatal error and `next_action = "error"` (routing to the Error
terminal), leave `retry_count` untouched (no retry), and produce a result that
is independent of every adapter — the tool is never consulted. -/
theorem missing_input_fatal (env env2 : Env) (s : WState) :
    (strTruthy s.user_image = false →
      classifying_node env s = classifying_node env2 s
      ∧ (classifying_node env s).next_action = some "error"
      ∧ (classifying_node env s).error_message = some "No image provided for classification"
      ∧ (classifying_node env s).retry_count = s.retry_count
      ∧ route_from_classifying (classifying_node env s) = "error"
      ∧ alookup (edgesFor NodeId.classifying) "error" = some NodeId.errorNode)
    ∧ (s.classification_results = none →
      prescribing_node env s = prescribing_node env2 s
      ∧ (prescribing_node env s).next_action = some "error"
      ∧ (prescribing_node env s).error_message
          = some "No classification results available for prescription"
      ∧ (prescribing_node env s).retry_count = s.retry_count
      ∧ route_from_prescribing (prescribing_node env s) = "error"
      ∧ alookup (edgesFor NodeId.prescribing) "error" = some NodeId.errorNode) := by
  constructor
  · intro h
    refine ⟨?_, ?_, ?_, ?_, ?_, by decide⟩ <;>
      simp [classifying_node, h, set_error, update_state_node, route_from_classifying]
  · intro h
    refine ⟨?_, ?_, ?_, ?_, ?_, by decide⟩ <;>
      simp [prescribing_node, h, set_error, update_state_node, route_from_prescribing]

/-- C7 witness: a concrete state with no image and no classification results
is sent to the Error node by both stateful nodes without consulting any
adapter. -/
theorem missing_input_fatal_witness :
    (classifying_node { classify := fun _ => ToolRes.ok {} } { session_id := "w7" }
        = classifying_node {} { session_id := "w7" }
      ∧ (classifying_node {} { session_id := "w7" }).next_action = some "error")
    ∧ ((prescribing_node {} { session_id := "w7" }).next_action = some "error"
      ∧ (prescribing_node {} { session_id := "w7" }).retry_count = 0) := by
  have h := missing_input_fatal { classify := fun _ => ToolRes.ok {} } {} { session_id := "w7" }
  have h2 := missing_input_fatal {} {} { session_id := "w7" }
  exact ⟨⟨(h.1 (by decide)).1, (h2.1 (by decide)).2.1⟩,
    ⟨(h2.2 (by decide)).2.1, (h2.2 (by decide)).2.2.2.1⟩⟩

/-! ## C9: ShowVendors degrades on adapter failure -/

theorem charsLeadMatch_nil (h : List Char) : charsLeadMatch [] h = true := by
  simp [charsLeadMatch]

theorem charsContain_append (n xs ys : List Char) (h : charsContain n ys = true) :
    charsContain n (xs ++ ys) = true := by
  induction xs with
  | nil => simpa using h
  | cons x t ih =>
    simp [List.cons_append, charsContain, ih]

/-- Substring containment survives prepending arbitrary text. -/
theorem strContains_append_left (x y needle : String)
    (h : strContains y needle = true) :
    strContains (x ++ y) needle = true := by
  simp only [strContains, String.data_append]
  exact charsContain_append _ _ _ h

/-- C9: when the treatment-recommendations precondition holds and the Vendor
adapter returns an error payload or raises, the ShowVendors node does not
route to Error: it sets `next_action = "complete"` (the router sends the run
to Completed) and appends an assistant message advising local suppliers. -/
theorem show_vendors_degrades (env : Env) (s : WState) (e : String)
    (hpre : s.treatment_recommendations ≠ [])
    (hfail : env.vendor = ToolRes.errPayload e ∨ env.vendor = ToolRes.raised e) :
    (show_vendors_node env s).next_action = some "complete"
    ∧ route_from_show_vendors (show_vendors_node env s) = "completed"
    ∧ alookup (edgesFor NodeId.showVendors) "completed" = some NodeId.completed
    ∧ (∃ m : Msg, m ∈ (show_vendors_node env s).messages
        ∧ m.role = "assistant" ∧ m.node = "show_vendors"
        ∧ strContains m.content ("local suppliers") = true) := by
  rcases hfail with hv | hv
  · have h1 : (show_vendors_node env s).next_action = some "complete" := by
      simp [show_vendors_node, hpre, hv, update_state_node, add_message_to_state, set_error]
    refine ⟨h1, by simp [route_from_show_vendors, h1], by decide, ?_⟩
    refine ⟨{ role := "assistant"
              content := "⚠️ Unable to fetch vendor information: " ++ e
                ++ ". You can still proceed with the treatment recommendations using local suppliers."
              node := "show_vendors" },
      ?_, rfl, rfl, strContains_append_left _ _ _ (by decide)⟩
    simp [show_vendors_node, hpre, hv, update_state_node, add_message_to_state, set_error]
  · have h1 : (show_vendors_node env s).next_action = some "complete" := by
      simp [show_vendors_node, hpre, hv, update_state_node, add_message_to_state, set_error]
    refine ⟨h1, by simp [route_from_show_vendors, h1], by decide, ?_⟩
    refine ⟨{ role := "assistant"
              content := "⚠️ Error searching for vendors: " ++ e
                ++ ". You can still proceed with the treatment recommendations using local suppliers."
              node := "show_vendors" },
      ?_, rfl, rfl, strContains_append_left _ _ _ (by decide)⟩
    simp [show_vendors_node, hpre, hv, update_state_node, add_message_to_state, set_error]

/-- C9 witness: a concrete failing vendor adapter degrades to completion. -/
theorem show_vendors_degrades_witness :
    (show_vendors_node { vendor := ToolRes.errPayload "http 500" }
        { session_id := "w9", treatment_recommendations := [{ name := "fungicide" }] }).next_action
      = some "complete"
    ∧ route_from_show_vendors
        (show_vendors_node { vendor := ToolRes.errPayload "http 500" }
          { session_id := "w9", treatment_recommendations := [{ name := "fungicide" }] })
      = "completed" := by
  have h := show_vendors_degrades { vendor := ToolRes.errPayload "http 500" }
    { session_id := "w9", treatment_recommendations := [{ name := "fungicide" }] }
    ("http 500") (by decide) (Or.inl rfl)
  exact ⟨h.1, h.2.1⟩

/-- C5 witness: a stored session with an image keeps it on an image-less turn
and replaces it on a turn with a new image. -/
theorem sticky_image_witness :
    (get_or_create_state
        [("sid2", { session_id := "sid2", user_message := "old", user_image := some "IMGX" })]
        ("sid2") ("next turn") none []).1.user_image = some "IMGX"
    ∧ (get_or_create_state
        [("sid2", { session_id := "sid2", user_message := "old", user_image := some "IMGX" })]
        ("sid2") ("next turn") (some "IMGY") []).1.user_image = some "IMGY" := by
  have h := sticky_image
    [("sid2", { session_id := "sid2", user_message := "old", user_image := some "IMGX" })]
    ("sid2") ("next turn") []
    { session_id := "sid2", user_message := "old", user_image := some "IMGX" }
    ("IMGX") (by decide) (by decide)
  exact ⟨h.1, h.2.1 ("IMGY") (by decide)⟩

end Sasya
